import Mathlib

/-!
# ARCC: target acquisition and countdown scheduling

A shallow embedding of the core of `src/main.cpp` (class `ARCCApp`): the members that
hold the target, the capture session and the countdown, and the member functions that
read and write them.  Calls into the Win32 API are recorded as a list of `Effect`s in
program order; values the API hands back (the clock, the window under the cursor, the
process list, the result of installing the hook) are arguments of the embedded
functions.
-/

namespace ARCC

/-! ## Platform types and constants -/

/-! Handles (`HWND`, `HHOOK`), process ids (`DWORD`), `time_t` (seconds since the epoch)
and `system_clock::time_point` (clock ticks since the epoch) are natural numbers; the null
handle is `0`. -/

/-- Ticks of `system_clock` per second (the MSVC clock counts 100 ns units). -/
def TICKS_PER_SECOND : Nat := 10000000

/-- The timer identifiers.  `TIMER_COUNTDOWN` and `TIMER_STATUS_UPDATE` are macros of
`resource.h`, whose numeric values `main.cpp` does not show; they are kept abstract, and
distinct, as the `case` labels of the `switch` in `OnTimer` must be.  `OTHER` stands for
any other identifier a `WM_TIMER` message may carry. -/
inductive TimerId where
  | TIMER_COUNTDOWN
  | TIMER_STATUS_UPDATE
  | OTHER
  deriving DecidableEq, Repr

def ES_SYSTEM_REQUIRED : Nat := 0x00000001
def ES_DISPLAY_REQUIRED : Nat := 0x00000002
def ES_CONTINUOUS : Nat := 0x80000000
def MB_OK : Nat := 0x00
def MB_ICONERROR : Nat := 0x10
def MB_ICONWARNING : Nat := 0x30
def VK_RETURN : Nat := 0x0D
def VK_SHIFT : Nat := 0x10
def VK_ESCAPE : Nat := 0x1B
def KEYEVENTF_KEYUP : Nat := 0x0002
def WM_LBUTTONDOWN : Nat := 0x0201
def HOUR_COUNT : Nat := 5

def RESUME_MESSAGE : String := "RESUME"
def FILE_EXT_EXE : String := ".exe"
def PROCESS_EXPLORER : String := "explorer"
def PROCESS_ARCC : String := "arcc"
def ERR_HOOK_FAILED : String := "Failed to install mouse hook"
def ERR_NO_TARGET : String := "Please select a target window first"
def ERR_TARGET_GONE : String := "Target window is no longer available"
def ERR_TITLE : String := "Error"
def WARN_TITLE : String := "Warning"

/-- One call into the platform, as the program issues it.  The main-window argument
(`m_hMainWindow`, fixed once the window exists) is left out; `SetWindowsHookEx` carries
the handle the platform returned (`0` when it failed). -/
inductive Effect where
  | KillTimer (id : TimerId)
  | SetTimer (id : TimerId) (elapse : Nat)
  | SetThreadExecutionState (esFlags : Nat)
  | MessageBoxA (text : String) (caption : String) (uType : Nat)
  | SetForegroundWindow (hWnd : Nat)
  | Sleep (ms : Nat)
  | keybd_event (bVk : Nat) (dwFlags : Nat)
  | SetWindowsHookEx (result : Nat)
  | UnhookWindowsHookEx (hhk : Nat)
  | CallNextHookEx (hhk : Nat)
  | InvalidateRect
  | UpdateUI
  | PostQuitMessage
  deriving DecidableEq, Repr

/-! ## Clock and calendar -/

/-- Broken-down local time.  The calendar date (`tm_mday`, `tm_mon`, `tm_year`) is kept
as one field, the number of whole days since the epoch. -/
structure tm where
  tm_sec : Nat
  tm_min : Nat
  tm_hour : Nat
  tm_day : Nat
  deriving DecidableEq, Repr

/-- `system_clock::to_time_t`: whole seconds of a time point. -/
def to_time_t (tp : Nat) : Nat := tp / TICKS_PER_SECOND

/-- `system_clock::from_time_t`. -/
def from_time_t (t : Nat) : Nat := t * TICKS_PER_SECOND

/-- `std::chrono::hours(n)` as a tick count. -/
def hours (n : Nat) : Nat := n * 3600 * TICKS_PER_SECOND

/-- `localtime_s` for a zone with a fixed offset and no daylight saving; seconds are
counted from the local epoch, so the offset does not appear. -/
def localtime_s (t : Nat) : tm :=
  { tm_sec := t % 60, tm_min := t / 60 % 60, tm_hour := t / 3600 % 24, tm_day := t / 86400 }

/-- `mktime` for the same zone; fields outside their range are carried over. -/
def mktime (x : tm) : Nat :=
  x.tm_day * 86400 + x.tm_hour * 3600 + x.tm_min * 60 + x.tm_sec

/-! ## Program state -/

/-- The members of `ARCCApp` that the scheduler and the capture session own. -/
structure ARCCApp where
  m_hTargetWindow : Nat
  m_hInputHook : Nat
  m_bCapturing : Bool
  m_bTimerActive : Bool
  m_targetTime : Nat
  m_targetWindowTitle : String
  m_targetProcessName : String
  m_selectedHourOffset : Nat
  deriving DecidableEq, Repr

/-- State set up by the constructor `ARCCApp()` (`m_targetTime` is default-constructed). -/
def ARCCApp.init : ARCCApp :=
  { m_hTargetWindow := 0, m_hInputHook := 0, m_bCapturing := false, m_bTimerActive := false,
    m_targetTime := 0, m_targetWindowTitle := "", m_targetProcessName := "",
    m_selectedHourOffset := 0 }

/-! ## Countdown timer -/

/-- `ARCCApp::StopTimer`. -/
def StopTimer (s : ARCCApp) : ARCCApp × List Effect :=
  if s.m_bTimerActive then
    ({ s with m_bTimerActive := false },
      [Effect.KillTimer TimerId.TIMER_COUNTDOWN, Effect.KillTimer TimerId.TIMER_STATUS_UPDATE,
       Effect.SetThreadExecutionState ES_CONTINUOUS])
  else (s, [])

/-- The fire instant `ToggleTimer` computes from the clock reading `now` and the
selected hour offset (the body of its start branch up to `m_targetTime = target`). -/
def computeTargetTime (now : Nat) (selectedHourOffset : Nat) : Nat :=
  let local_tm := localtime_s (to_time_t now)
  let targetHour := local_tm.tm_hour + 1 + selectedHourOffset
  let dayOffset := if targetHour ≥ 24 then targetHour / 24 else 0
  let targetHour := if targetHour ≥ 24 then targetHour % 24 else targetHour
  let local_tm := { local_tm with tm_hour := targetHour, tm_min := 0, tm_sec := 10 }
  let target := from_time_t (mktime local_tm)
  if dayOffset > 0 then target + hours (24 * dayOffset) else target

/-- `ARCCApp::ToggleTimer`, with `now` the reading of `system_clock::now()`. -/
def ToggleTimer (now : Nat) (s : ARCCApp) : ARCCApp × List Effect :=
  if s.m_bTimerActive then
    ((StopTimer s).1, (StopTimer s).2 ++ [Effect.UpdateUI])
  else if s.m_hTargetWindow = 0 then
    (s, [])
  else
    ({ s with m_targetTime := computeTargetTime now s.m_selectedHourOffset,
              m_bTimerActive := true },
      [Effect.SetTimer TimerId.TIMER_COUNTDOWN 1000,
       Effect.SetTimer TimerId.TIMER_STATUS_UPDATE 1000,
       Effect.SetThreadExecutionState (ES_CONTINUOUS ||| ES_SYSTEM_REQUIRED ||| ES_DISPLAY_REQUIRED),
       Effect.UpdateUI])

/-! ## Delivery of the resume message -/

/-- What the platform answers when `SendResumeMessage` asks it: whether a handle is
still a window, and the `SHORT` that `VkKeyScanA` returns for a character under the
current keyboard layout (as its 16-bit pattern). -/
structure Platform where
  IsWindow : Nat → Bool
  VkKeyScanA : Char → Nat

/-- Windows macro `LOBYTE`. -/
def LOBYTE (w : Nat) : Nat := w % 256

/-- Windows macro `HIBYTE`. -/
def HIBYTE (w : Nat) : Nat := w / 256 % 256

/-- One iteration of the loop over `RESUME_MESSAGE` in `SendResumeMessage`. -/
def sendChar (P : Platform) (c : Char) : List Effect :=
  let vk := P.VkKeyScanA c
  let key := LOBYTE vk
  let shift := HIBYTE vk
  (if shift &&& 1 ≠ 0 then [Effect.keybd_event VK_SHIFT 0] else []) ++
  [Effect.keybd_event key 0, Effect.keybd_event key KEYEVENTF_KEYUP] ++
  (if shift &&& 1 ≠ 0 then [Effect.keybd_event VK_SHIFT KEYEVENTF_KEYUP] else [])

/-- The loop `for (int i = 0; RESUME_MESSAGE[i]; i++)` over the characters of a string. -/
def sendChars (P : Platform) : List Char → List Effect
  | [] => []
  | c :: cs => sendChar P c ++ sendChars P cs

/-- `ARCCApp::SendResumeMessage` (a `const` member: it only issues calls). -/
def SendResumeMessage (P : Platform) (s : ARCCApp) : List Effect :=
  if s.m_hTargetWindow = 0 ∨ P.IsWindow s.m_hTargetWindow = false then
    [Effect.MessageBoxA ERR_TARGET_GONE WARN_TITLE (MB_OK ||| MB_ICONWARNING)]
  else
    [Effect.SetForegroundWindow s.m_hTargetWindow, Effect.Sleep 500] ++
    sendChars P RESUME_MESSAGE.toList ++
    [Effect.keybd_event VK_RETURN 0, Effect.keybd_event VK_RETURN KEYEVENTF_KEYUP]

/-- `ARCCApp::CheckCountdown`, with `now` the reading of `system_clock::now()`. -/
def CheckCountdown (P : Platform) (now : Nat) (s : ARCCApp) : ARCCApp × List Effect :=
  if now ≥ s.m_targetTime then
    ({ (StopTimer s).1 with m_selectedHourOffset := 0 },
      SendResumeMessage P s ++ (StopTimer s).2 ++ [Effect.UpdateUI])
  else (s, [])

/-- `ARCCApp::OnTimer`. -/
def OnTimer (P : Platform) (now : Nat) (timerID : TimerId) (s : ARCCApp) :
    ARCCApp × List Effect :=
  match timerID with
  | TimerId.TIMER_COUNTDOWN => CheckCountdown P now s
  | TimerId.TIMER_STATUS_UPDATE => (s, [Effect.UpdateUI])
  | TimerId.OTHER => (s, [])

/-- `CheckCountdown` with the modal loop of the warning box taken into account.
`MessageBoxA` returns only when the box is closed and dispatches window messages in the
meantime; the countdown timer is still set at that point (`StopTimer` comes after
`SendResumeMessage`), so its next `WM_TIMER` reaches `OnTimer` and `CheckCountdown` again
while the box is open.  `nested` lists the clock readings of these ticks, each arriving
while the box of the one before is open; the state a nested tick leaves behind is the
state the interrupted call continues with.  A live target shows no box (`Sleep` does not
dispatch), and with `nested = []` this is `CheckCountdown`. -/
def CheckCountdownReentrant (P : Platform) : List Nat → Nat → ARCCApp → ARCCApp × List Effect
  | [], now, s => CheckCountdown P now s
  | t :: nested, now, s =>
    if now ≥ s.m_targetTime then
      if s.m_hTargetWindow = 0 ∨ P.IsWindow s.m_hTargetWindow = false then
        ({ (StopTimer (CheckCountdownReentrant P nested t s).1).1 with
             m_selectedHourOffset := 0 },
          [Effect.MessageBoxA ERR_TARGET_GONE WARN_TITLE (MB_OK ||| MB_ICONWARNING)] ++
          (CheckCountdownReentrant P nested t s).2 ++
          (StopTimer (CheckCountdownReentrant P nested t s).1).2 ++ [Effect.UpdateUI])
      else CheckCountdown P now s
    else (s, [])

/-! ## Capture session -/

/-- `ARCCApp::StopWindowCapture`. -/
def StopWindowCapture (s : ARCCApp) : ARCCApp × List Effect :=
  if s.m_hInputHook ≠ 0 then
    ({ s with m_hInputHook := 0, m_bCapturing := false },
      [Effect.UnhookWindowsHookEx s.m_hInputHook])
  else ({ s with m_bCapturing := false }, [])

/-- `ARCCApp::StartWindowCapture`; `hook` is what `SetWindowsHookEx` returns
(`0` when the hook cannot be installed). -/
def StartWindowCapture (hook : Nat) (s : ARCCApp) : ARCCApp × List Effect :=
  let s := { s with m_hTargetWindow := 0, m_targetWindowTitle := "", m_targetProcessName := "",
                    m_bCapturing := true }
  let s := { s with m_hInputHook := hook }
  if hook = 0 then
    ({ s with m_bCapturing := false },
      [Effect.UpdateUI, Effect.SetWindowsHookEx hook,
       Effect.MessageBoxA ERR_HOOK_FAILED ERR_TITLE (MB_OK ||| MB_ICONERROR), Effect.UpdateUI])
  else (s, [Effect.UpdateUI, Effect.SetWindowsHookEx hook])

/-- An entry of the process snapshot. -/
structure PROCESSENTRY32 where
  th32ProcessID : Nat
  szExeFile : String
  deriving DecidableEq, Repr

/-- `std::string::find` from position 0: index of the first occurrence of `pat`,
`none` for `npos`. -/
def findFrom (pat : List Char) : List Char → Nat → Option Nat
  | [], i => if pat = [] then some i else none
  | c :: cs, i => if pat.isPrefixOf (c :: cs) then some i else findFrom pat cs (i + 1)

/-- The statements run for the snapshot entry whose process id matches: take the file
name and cut it at the first `.exe`. -/
def stripExe (szExeFile : String) : String :=
  match findFrom FILE_EXT_EXE.toList szExeFile.toList 0 with
  | some pos => String.mk (szExeFile.toList.take pos)
  | none => szExeFile

/-- The `do … while (Process32Next(…))` loop of `HandleInputHook`: the value of
`m_targetProcessName` after walking the snapshot, starting from `name`. -/
def resolveProcessName (processId : Nat) (name : String) : List PROCESSENTRY32 → String
  | [] => name
  | pe :: rest =>
    if pe.th32ProcessID = processId then stripExe pe.szExeFile
    else resolveProcessName processId name rest

/-- What the platform reports during one call of the low-level mouse hook. -/
structure HookEvent where
  nCode : Int
  wParam : Nat
  /-- Result of `WindowFromPoint(pt)`; `0` when there is no window. -/
  windowFromPoint : Nat
  /-- Process id from `GetWindowThreadProcessId`. -/
  processId : Nat
  /-- Entries of `CreateToolhelp32Snapshot`; `none` for `INVALID_HANDLE_VALUE`. -/
  snapshot : Option (List PROCESSENTRY32)
  /-- UTF-8 text of the window title; `none` when `WideCharToMultiByte` returns 0. -/
  windowTitle : Option String

/-- The snapshot block of `HandleInputHook`: the state once the process list has been
searched for the owner of the window under the cursor. -/
def lookupProcessName (ev : HookEvent) (s : ARCCApp) : ARCCApp :=
  match ev.snapshot with
  | some entries =>
    { s with m_targetProcessName :=
        resolveProcessName ev.processId s.m_targetProcessName entries }
  | none => s

/-- `ARCCApp::HandleInputHook`. -/
def HandleInputHook (ev : HookEvent) (s : ARCCApp) : ARCCApp × List Effect :=
  if ev.nCode ≥ 0 ∧ ev.wParam = WM_LBUTTONDOWN then
    if ev.windowFromPoint ≠ 0 then
      let s := lookupProcessName ev s
      if s.m_targetProcessName = PROCESS_EXPLORER ∨ s.m_targetProcessName = PROCESS_ARCC then
        (s, [Effect.CallNextHookEx s.m_hInputHook])
      else
        let s := match ev.windowTitle with
          | some utf8Title => { s with m_targetWindowTitle := utf8Title }
          | none => { s with m_targetWindowTitle := "" }
        let s := { s with m_hTargetWindow := ev.windowFromPoint }
        let r := StopWindowCapture s
        (r.1, r.2 ++ [Effect.UpdateUI, Effect.CallNextHookEx r.1.m_hInputHook])
    else (s, [Effect.CallNextHookEx s.m_hInputHook])
  else (s, [Effect.CallNextHookEx s.m_hInputHook])

/-- `ARCCApp::InputHookProc`: the hook procedure registered with the platform. -/
def InputHookProc (ev : HookEvent) (s : ARCCApp) : ARCCApp × List Effect :=
  if s.m_bCapturing then HandleInputHook ev s
  else (s, [Effect.CallNextHookEx 0])

/-! ## Derived state and clicks on the content area -/

/-- `ARCCApp::AppState`. -/
inductive AppState where
  | Idle
  | Ready
  | Waiting
  deriving DecidableEq, Repr

/-- `ARCCApp::GetCurrentAppState`. -/
def GetCurrentAppState (s : ARCCApp) : AppState :=
  if s.m_bTimerActive then AppState.Waiting
  else if s.m_hTargetWindow ≠ 0 then AppState.Ready
  else AppState.Idle

/-- Outcome of the rectangle tests `HandleContentClick` makes on the click position:
inside the target button, inside the start button, inside hour button `i`. -/
structure ContentHit where
  inTargetButton : Bool
  inStartButton : Bool
  inHourButton : Nat → Bool

/-- `ARCCApp::HandleContentClick`; `hook` and `now` are the results of
`SetWindowsHookEx` and `system_clock::now()` should the click reach them. -/
def HandleContentClick (hook : Nat) (now : Nat) (hit : ContentHit) (s : ARCCApp) :
    ARCCApp × List Effect :=
  if hit.inTargetButton then StartWindowCapture hook s
  else if hit.inStartButton then
    if GetCurrentAppState s ≠ AppState.Idle then ToggleTimer now s else (s, [])
  else
    match (List.range HOUR_COUNT).find? hit.inHourButton with
    | some i => ({ s with m_selectedHourOffset := i }, [Effect.InvalidateRect])
    | none => (s, [])

/-! ## Countdown text and hour labels -/

/-- `std::chrono::duration_cast<std::chrono::seconds>` of a tick difference: whole
seconds, rounded toward zero. -/
def duration_cast_seconds (d : Int) : Int :=
  if 0 ≤ d then d / (TICKS_PER_SECOND : Int) else -((-d) / (TICKS_PER_SECOND : Int))

/-- Output of `<< std::setfill(L'0') << std::setw(2) << n` for a non-negative `n`: the
decimal digits, filled with zeros on the left up to width 2. -/
def setw2 (n : Nat) : String :=
  String.mk (List.replicate (2 - (toString n).length) '0') ++ toString n

/-- `ARCCApp::GetCountdownText`, with `now` the reading of `system_clock::now()`. -/
def GetCountdownText (now : Nat) (s : ARCCApp) : String :=
  if s.m_bTimerActive = false then ""
  else
    let remaining := duration_cast_seconds ((s.m_targetTime : Int) - (now : Int))
    if remaining > 0 then
      let hours := (remaining / 3600).toNat
      let minutes := ((remaining % 3600) / 60).toNat
      let seconds := (remaining % 60).toNat
      "Resuming in " ++ setw2 hours ++ ":" ++ setw2 minutes ++ ":" ++ setw2 seconds
    else ""

/-- The start of the next hour as `GetNext5HourTimes` computes it: minutes and seconds
cleared, `tm_hour += 1`, normalised by `mktime`. -/
def nextHour (now : Nat) : Nat :=
  let local_tm := localtime_s (to_time_t now)
  let local_tm := { local_tm with tm_min := 0, tm_sec := 0, tm_hour := local_tm.tm_hour + 1 }
  from_time_t (mktime local_tm)

/-- The instant `futureTime` of iteration `i` of the loop in `GetNext5HourTimes`. -/
def futureTime (now i : Nat) : Nat := nextHour now + hours i

/-- The text the loop body of `GetNext5HourTimes` builds from `future_tm.tm_hour`. -/
def hourLabel (tm_hour : Nat) : String :=
  let hour12 := tm_hour % 12
  let hour12 := if hour12 = 0 then 12 else hour12
  toString hour12 ++ (if tm_hour ≥ 12 then "pm" else "am")

/-- `ARCCApp::GetNext5HourTimes`, with `now` the reading of `system_clock::now()`. -/
def GetNext5HourTimes (now : Nat) : List String :=
  (List.range HOUR_COUNT).map fun i =>
    hourLabel (localtime_s (to_time_t (futureTime now i))).tm_hour

/-! ## Window messages -/

/-- Where a left-button click on the main window lands (`OnMouseLeftClick`): on the title
bar, whose buttons and drag area touch none of the members modelled here, or on the
content area. -/
inductive ClickPos where
  | titleBar
  | content (hit : ContentHit)

/-- The window messages `HandleWindowMessage` handles that reach the scheduler or the
capture session; `OTHER` stands for the rest (painting, mouse movement, sizing). -/
inductive Message where
  | WM_TIMER (timerID : TimerId)
  | WM_KEYDOWN (wParam : Nat)
  | WM_KILLFOCUS
  | WM_LBUTTONDOWN (pos : ClickPos)
  | WM_DESTROY
  | OTHER

/-- The capture-cancelling block shared by the `WM_KEYDOWN` and `WM_KILLFOCUS` cases of
`HandleWindowMessage`. -/
def cancelCapture (s : ARCCApp) : ARCCApp × List Effect :=
  let s := { s with m_hTargetWindow := 0, m_targetWindowTitle := "", m_targetProcessName := "" }
  ((StopWindowCapture s).1, (StopWindowCapture s).2 ++ [Effect.UpdateUI])

/-- `ARCCApp::OnMouseLeftClick`. -/
def OnMouseLeftClick (hook now : Nat) (pos : ClickPos) (s : ARCCApp) : ARCCApp × List Effect :=
  match pos with
  | ClickPos.titleBar => (s, [])
  | ClickPos.content hit => HandleContentClick hook now hit s

/-- `ARCCApp::HandleWindowMessage`; `now` and `hook` are the results of
`system_clock::now()` and `SetWindowsHookEx` should the message reach them. -/
def HandleWindowMessage (P : Platform) (now hook : Nat) (msg : Message) (s : ARCCApp) :
    ARCCApp × List Effect :=
  match msg with
  | Message.WM_TIMER timerID => OnTimer P now timerID s
  | Message.WM_KEYDOWN wParam =>
    if wParam = VK_ESCAPE ∧ s.m_bCapturing = true then cancelCapture s else (s, [])
  | Message.WM_KILLFOCUS =>
    if s.m_bCapturing = true then cancelCapture s else (s, [])
  | Message.WM_LBUTTONDOWN pos => OnMouseLeftClick hook now pos s
  | Message.WM_DESTROY => ((StopTimer s).1, (StopTimer s).2 ++ [Effect.PostQuitMessage])
  | Message.OTHER => (s, [])

/-! ## Runs -/

/-- One entry into the program from the platform: a window message, or a call of the
registered mouse hook procedure. -/
inductive Event where
  | message (now hook : Nat) (msg : Message)
  | mouseHook (ev : HookEvent)

/-- The program's reaction to one event. -/
def dispatch (P : Platform) (e : Event) (s : ARCCApp) : ARCCApp × List Effect :=
  match e with
  | Event.message now hook msg => HandleWindowMessage P now hook msg s
  | Event.mouseHook ev => InputHookProc ev s

/-- A sequence of events handled one after the other; the calls issued are collected in
order. -/
def run (P : Platform) : List Event → ARCCApp → ARCCApp × List Effect
  | [], s => (s, [])
  | e :: es, s => ((run P es (dispatch P e s).1).1, (dispatch P e s).2 ++ (run P es (dispatch P e s).1).2)

/-- The platform's side of the hook calls: the handles of the hooks that are installed
after a list of calls, given those installed before.  A successful `SetWindowsHookEx`
adds its handle, `UnhookWindowsHookEx` removes the one it names. -/
def installedHooks (installed : List Nat) : List Effect → List Nat
  | [] => installed
  | Effect.SetWindowsHookEx result :: es =>
    installedHooks (if result ≠ 0 then result :: installed else installed) es
  | Effect.UnhookWindowsHookEx hhk :: es => installedHooks (installed.erase hhk) es
  | _ :: es => installedHooks installed es

/-! ## Sample inputs -/

/-- A stopped state with window `7` captured ("Notepad", title "Untitled") and hour
offset 2 selected. -/
def readyState : ARCCApp :=
  { ARCCApp.init with m_hTargetWindow := 7, m_targetWindowTitle := "Untitled",
                      m_targetProcessName := "Notepad", m_selectedHourOffset := 2 }

/-- The time point `h:m:s` (plus `frac` ticks) on day `d`. -/
def clock (d h m sec frac : Nat) : Nat :=
  from_time_t (d * 86400 + h * 3600 + m * 60 + sec) + frac

/-- A keyboard layout in which a capital Latin letter is typed with shift on the key
named after it (virtual-key code = the letter's ASCII code) and a small letter on the
same key without shift; other characters are reported as having no key (`-1`). -/
def latinLayout (c : Char) : Nat :=
  if 65 ≤ c.toNat ∧ c.toNat ≤ 90 then 0x0100 + c.toNat
  else if 97 ≤ c.toNat ∧ c.toNat ≤ 122 then c.toNat - 32
  else 0xFFFF

/-- A platform on which window `7` is alive and every other handle is stale. -/
def platformLive : Platform :=
  { IsWindow := fun h => decide (h = 7), VkKeyScanA := latinLayout }

/-- A platform on which no handle is a window any more. -/
def platformGone : Platform :=
  { IsWindow := fun _ => false, VkKeyScanA := latinLayout }

/-- The state `readyState` armed for the fire instant 17:00:10 on day 3. -/
def armedState : ARCCApp :=
  { readyState with m_bTimerActive := true, m_targetTime := clock 3 17 0 10 0 }

/-- A capturing state: hook `5` installed, target cleared. -/
def capturingState : ARCCApp :=
  { ARCCApp.init with m_bCapturing := true, m_hInputHook := 5 }

/-- A left-button press over window `9`, owned by process `4`. -/
def clickOn (entries : List PROCESSENTRY32) : HookEvent :=
  { nCode := 0, wParam := WM_LBUTTONDOWN, windowFromPoint := 9, processId := 4,
    snapshot := some entries, windowTitle := some "Desktop" }

/-- A click that lands on the start button only. -/
def startClick : ContentHit :=
  { inTargetButton := false, inStartButton := true, inHourButton := fun _ => false }

/-- A click that lands on the target button only. -/
def targetClick : ContentHit :=
  { inTargetButton := true, inStartButton := false, inHourButton := fun _ => false }

/-- The event "target button clicked", with `hook` the handle `SetWindowsHookEx` will
return. -/
def beginCapture (hook : Nat) : Event :=
  Event.message 0 hook (Message.WM_LBUTTONDOWN (ClickPos.content targetClick))

/-- A left-button press over window `9` whose owning process `4` is not in the process
list. -/
def clickUnresolved : HookEvent :=
  { nCode := 0, wParam := WM_LBUTTONDOWN, windowFromPoint := 9, processId := 4,
    snapshot := some [⟨1, "System"⟩, ⟨2, "notepad.exe"⟩], windowTitle := some "Ghost" }

/-- The event "start button clicked" at clock reading `now`. -/
def startEvent (now : Nat) : Event :=
  Event.message now 0 (Message.WM_LBUTTONDOWN (ClickPos.content startClick))

/-- A click that lands on hour button `i` only. -/
def hourClick (i : Nat) : ContentHit :=
  { inTargetButton := false, inStartButton := false, inHourButton := fun j => decide (j = i) }

/-- A click on the content area that lands on no button. -/
def missClick : ContentHit :=
  { inTargetButton := false, inStartButton := false, inHourButton := fun _ => false }

/-- The event "main window destroyed". -/
def destroyEvent : Event := Event.message 0 0 Message.WM_DESTROY

/-! ## The platform's sleep inhibition -/

/-- The platform's side of `SetThreadExecutionState`: the flags in force after a list of
calls, given those in force before (each call replaces them). -/
def threadExecutionState (flags : Nat) : List Effect → Nat
  | [] => flags
  | Effect.SetThreadExecutionState esFlags :: es => threadExecutionState esFlags es
  | _ :: es => threadExecutionState flags es

/-- Whether the flags in force keep the system or the display awake. -/
def sleepInhibited (flags : Nat) : Bool :=
  flags &&& (ES_SYSTEM_REQUIRED ||| ES_DISPLAY_REQUIRED) != 0

/-! ## Predicates on states and runs -/

/-- Whether an event is a click that lands on the target button. -/
def clicksTargetButton : Event → Bool
  | Event.message _ _ (Message.WM_LBUTTONDOWN (ClickPos.content hit)) => hit.inTargetButton
  | _ => false

/-- No event of the run is a click on the target button made while the timer is
active. -/
def noCaptureWhileArmed (P : Platform) : List Event → ARCCApp → Prop
  | [], _ => True
  | e :: es, s =>
    ¬ (clicksTargetButton e = true ∧ s.m_bTimerActive = true) ∧
    noCaptureWhileArmed P es (dispatch P e s).1

/-- While capturing no target is held, and while the timer is active a target is held. -/
def targetInv (s : ARCCApp) : Prop :=
  (s.m_bCapturing = true → s.m_hTargetWindow = 0) ∧
  (s.m_bTimerActive = true → s.m_hTargetWindow ≠ 0)

/-! ## Start: the fire instant -/

/-- C1: starting the countdown from the stopped state with a target present arms the timer
and sets the fire instant to the next whole-hour boundary `B` after the clock reading
(a multiple of one hour, strictly after `now` and at most one hour after it) plus the
selected offset `i ≤ 4` in hours plus 10 seconds; in calendar terms the fire instant is
`(hour + 1 + i) mod 24 : 00 : 10`, on the same day, or on the next day when
`hour + 1 + i` reaches 24. -/
theorem ToggleTimer_fire_instant (now : Nat) (s : ARCCApp)
    (hstop : s.m_bTimerActive = false) (htgt : s.m_hTargetWindow ≠ 0)
    (hi : s.m_selectedHourOffset ≤ 4) :
    (ToggleTimer now s).1.m_bTimerActive = true ∧
    ((to_time_t now / 3600 + 1) * 3600) % 3600 = 0 ∧
    now < from_time_t ((to_time_t now / 3600 + 1) * 3600) ∧
    from_time_t ((to_time_t now / 3600 + 1) * 3600) ≤ now + hours 1 ∧
    (ToggleTimer now s).1.m_targetTime =
      from_time_t ((to_time_t now / 3600 + 1) * 3600) + hours s.m_selectedHourOffset
        + 10 * TICKS_PER_SECOND ∧
    localtime_s (to_time_t (ToggleTimer now s).1.m_targetTime) =
      { tm_sec := 10, tm_min := 0,
        tm_hour := ((localtime_s (to_time_t now)).tm_hour + 1 + s.m_selectedHourOffset) % 24,
        tm_day := (localtime_s (to_time_t now)).tm_day +
          (if (localtime_s (to_time_t now)).tm_hour + 1 + s.m_selectedHourOffset ≥ 24
            then 1 else 0) } := by
  have hT : (ToggleTimer now s).1.m_targetTime =
      from_time_t ((to_time_t now / 3600 + 1) * 3600) + hours s.m_selectedHourOffset
        + 10 * TICKS_PER_SECOND := by
    simp only [ToggleTimer, hstop, htgt, computeTargetTime, localtime_s, mktime, from_time_t,
      to_time_t, hours, TICKS_PER_SECOND, Bool.false_eq_true, if_false]
    split_ifs <;> omega
  refine ⟨by simp [ToggleTimer, hstop, htgt], by omega, ?_, ?_, hT, ?_⟩
  · simp only [from_time_t, to_time_t, TICKS_PER_SECOND]; omega
  · simp only [from_time_t, to_time_t, hours, TICKS_PER_SECOND]; omega
  · rw [hT]
    simp only [localtime_s, from_time_t, to_time_t, hours, TICKS_PER_SECOND, tm.mk.injEq]
    refine ⟨by omega, by omega, by omega, ?_⟩
    split_ifs <;> omega

/-- The first example of C1: started at 14:05:00 with offset 2, the countdown fires at
17:00:10 on the same day. -/
theorem ToggleTimer_fire_instant_witness :
    (ToggleTimer (clock 3 14 5 0 0) readyState).1.m_targetTime = clock 3 17 0 10 0 ∧
    localtime_s (to_time_t (ToggleTimer (clock 3 14 5 0 0) readyState).1.m_targetTime) =
      { tm_sec := 10, tm_min := 0, tm_hour := 17, tm_day := 3 } :=
  ⟨(ToggleTimer_fire_instant (clock 3 14 5 0 0) readyState rfl (by decide) (by decide)).2.2.2.2.1,
   (ToggleTimer_fire_instant (clock 3 14 5 0 0) readyState rfl (by decide) (by decide)).2.2.2.2.2⟩

/-- The second example of C1: started at 23:40 with offset 0, the countdown fires at
00:00:10 on the next day. -/
theorem ToggleTimer_midnight_example :
    localtime_s (to_time_t (ToggleTimer (clock 3 23 40 0 0)
      { readyState with m_selectedHourOffset := 0 }).1.m_targetTime) =
      { tm_sec := 10, tm_min := 0, tm_hour := 0, tm_day := 4 } := by
  decide

/-! ## Tick -/

/-- C2: in an armed state, a tick at or after the fire instant runs the delivery attempt
first, then stops the timer (both timers cancelled, sleep inhibition released), then
resets the hour offset to 0; the state afterwards is stopped with offset 0, whatever the
platform says about the target window. -/
theorem CheckCountdown_fires (P : Platform) (now : Nat) (s : ARCCApp)
    (harmed : s.m_bTimerActive = true) (hdue : s.m_targetTime ≤ now) :
    (CheckCountdown P now s).2 =
      SendResumeMessage P s ++
      [Effect.KillTimer TimerId.TIMER_COUNTDOWN, Effect.KillTimer TimerId.TIMER_STATUS_UPDATE,
       Effect.SetThreadExecutionState ES_CONTINUOUS] ++ [Effect.UpdateUI] ∧
    SendResumeMessage P s ≠ [] ∧
    (CheckCountdown P now s).1 = { (StopTimer s).1 with m_selectedHourOffset := 0 } ∧
    (CheckCountdown P now s).1 = { s with m_bTimerActive := false, m_selectedHourOffset := 0 } ∧
    (CheckCountdown P now s).1.m_bTimerActive = false ∧
    (CheckCountdown P now s).1.m_selectedHourOffset = 0 := by
  have hs : StopTimer s = ({ s with m_bTimerActive := false },
      [Effect.KillTimer TimerId.TIMER_COUNTDOWN, Effect.KillTimer TimerId.TIMER_STATUS_UPDATE,
       Effect.SetThreadExecutionState ES_CONTINUOUS]) := by
    simp [StopTimer, harmed]
  have hne : SendResumeMessage P s ≠ [] := by
    unfold SendResumeMessage
    split_ifs <;> simp
  simp [CheckCountdown, hdue, hs, hne]

/-- Witness of C2: the armed sample state ticked at its fire instant, on a platform where
the target is gone. -/
theorem CheckCountdown_fires_witness :
    (CheckCountdown platformGone (clock 3 17 0 10 0) armedState).1.m_bTimerActive = false ∧
    (CheckCountdown platformGone (clock 3 17 0 10 0) armedState).1.m_selectedHourOffset = 0 :=
  ⟨(CheckCountdown_fires platformGone (clock 3 17 0 10 0) armedState rfl (by decide)).2.2.2.2.1,
   (CheckCountdown_fires platformGone (clock 3 17 0 10 0) armedState rfl (by decide)).2.2.2.2.2⟩

/-- C4: in an armed state, a tick strictly before the fire instant issues no call at all
and returns the state as it was: still active, same fire instant, target and offset. -/
theorem CheckCountdown_before_expiry (P : Platform) (now : Nat) (s : ARCCApp)
    (harmed : s.m_bTimerActive = true) (hearly : now < s.m_targetTime) :
    CheckCountdown P now s = (s, []) ∧
    (CheckCountdown P now s).1.m_bTimerActive = true ∧
    (CheckCountdown P now s).1.m_targetTime = s.m_targetTime ∧
    (CheckCountdown P now s).1.m_hTargetWindow = s.m_hTargetWindow ∧
    (CheckCountdown P now s).1.m_selectedHourOffset = s.m_selectedHourOffset ∧
    OnTimer P now TimerId.TIMER_COUNTDOWN s = (s, []) := by
  have h : CheckCountdown P now s = (s, []) := by
    simp [CheckCountdown, Nat.not_le.mpr hearly]
  simp [OnTimer, h, harmed]

/-- Witness of C4: the armed sample state ticked one clock tick before 17:00:10. -/
theorem CheckCountdown_before_expiry_witness :
    CheckCountdown platformLive (clock 3 17 0 9 9999999) armedState = (armedState, []) :=
  (CheckCountdown_before_expiry platformLive (clock 3 17 0 9 9999999) armedState rfl
    (by decide)).1

/-- C3 fails on the code when the target is gone at the fire instant.  The target is
captured (window `9`) and the countdown started at 14:05:00, which sets the countdown
timer; at 15:00:10 the tick finds the window gone and `SendResumeMessage` shows the
warning box.  `StopTimer` has not run yet, so one second later the timer ticks again
while the box is open, and that tick makes a second delivery attempt in the same arm
cycle (a second warning box) before any `KillTimer` is issued.  The timer flag is not
what holds a further delivery back either: `CheckCountdown` called in the state the fire
leaves behind (timer inactive) delivers again. -/
theorem delivery_repeated_within_arm_cycle :
    (run platformGone
      [beginCapture 5, Event.mouseHook (clickOn [⟨4, "notepad.exe"⟩]),
       startEvent (clock 3 14 5 0 0)] ARCCApp.init).1 =
      { ARCCApp.init with m_hTargetWindow := 9, m_targetWindowTitle := "Desktop",
                          m_targetProcessName := "notepad", m_bTimerActive := true,
                          m_targetTime := clock 3 15 0 10 0 } ∧
    Effect.SetTimer TimerId.TIMER_COUNTDOWN 1000 ∈ (run platformGone
      [beginCapture 5, Event.mouseHook (clickOn [⟨4, "notepad.exe"⟩]),
       startEvent (clock 3 14 5 0 0)] ARCCApp.init).2 ∧
    (CheckCountdownReentrant platformGone [clock 3 15 0 11 0] (clock 3 15 0 10 0)
      { ARCCApp.init with m_hTargetWindow := 9, m_targetWindowTitle := "Desktop",
                          m_targetProcessName := "notepad", m_bTimerActive := true,
                          m_targetTime := clock 3 15 0 10 0 }).2 =
      [Effect.MessageBoxA ERR_TARGET_GONE WARN_TITLE (MB_OK ||| MB_ICONWARNING),
       Effect.MessageBoxA ERR_TARGET_GONE WARN_TITLE (MB_OK ||| MB_ICONWARNING),
       Effect.KillTimer TimerId.TIMER_COUNTDOWN, Effect.KillTimer TimerId.TIMER_STATUS_UPDATE,
       Effect.SetThreadExecutionState ES_CONTINUOUS, Effect.UpdateUI, Effect.UpdateUI] ∧
    (CheckCountdown platformGone (clock 3 15 0 10 0)
      (CheckCountdown platformGone (clock 3 15 0 10 0)
        { ARCCApp.init with m_hTargetWindow := 9, m_targetWindowTitle := "Desktop",
                            m_targetProcessName := "notepad", m_bTimerActive := true,
                            m_targetTime := clock 3 15 0 10 0 }).1).2 =
      [Effect.MessageBoxA ERR_TARGET_GONE WARN_TITLE (MB_OK ||| MB_ICONWARNING),
       Effect.UpdateUI] := by
  decide

/-- What a further `CheckCountdown` does once a tick has fired: the fire leaves the timer
stopped and has cancelled both platform timers; a call at the same or a later clock
value, with no start in between, leaves the state unchanged and cancels or releases
nothing again, but runs `SendResumeMessage` again, since it tests only the clock against
the fire instant that is still stored. -/
theorem CheckCountdown_second_tick (P : Platform) (now later : Nat) (s : ARCCApp)
    (harmed : s.m_bTimerActive = true) (hdue : s.m_targetTime ≤ now) (hlater : now ≤ later) :
    (CheckCountdown P now s).1.m_bTimerActive = false ∧
    Effect.KillTimer TimerId.TIMER_COUNTDOWN ∈ (CheckCountdown P now s).2 ∧
    Effect.KillTimer TimerId.TIMER_STATUS_UPDATE ∈ (CheckCountdown P now s).2 ∧
    (CheckCountdown P later (CheckCountdown P now s).1).1 = (CheckCountdown P now s).1 ∧
    (CheckCountdown P later (CheckCountdown P now s).1).2 =
      SendResumeMessage P (CheckCountdown P now s).1 ++ [Effect.UpdateUI] := by
  have hs : StopTimer s = ({ s with m_bTimerActive := false },
      [Effect.KillTimer TimerId.TIMER_COUNTDOWN, Effect.KillTimer TimerId.TIMER_STATUS_UPDATE,
       Effect.SetThreadExecutionState ES_CONTINUOUS]) := by
    simp [StopTimer, harmed]
  have h1 : CheckCountdown P now s =
      ({ s with m_bTimerActive := false, m_selectedHourOffset := 0 },
       SendResumeMessage P s ++
        [Effect.KillTimer TimerId.TIMER_COUNTDOWN, Effect.KillTimer TimerId.TIMER_STATUS_UPDATE,
         Effect.SetThreadExecutionState ES_CONTINUOUS] ++ [Effect.UpdateUI]) := by
    simp [CheckCountdown, hdue, hs]
  have hdue2 : s.m_targetTime ≤ later := Nat.le_trans hdue hlater
  rw [h1]
  simp [CheckCountdown, StopTimer, hdue2]

/-- The armed sample state ticked at 17:00:10 and again one second later: the second
call leaves the state as the first left it. -/
theorem CheckCountdown_second_tick_witness :
    (CheckCountdown platformLive (clock 3 17 0 11 0)
      (CheckCountdown platformLive (clock 3 17 0 10 0) armedState).1).1 =
      (CheckCountdown platformLive (clock 3 17 0 10 0) armedState).1 :=
  (CheckCountdown_second_tick platformLive (clock 3 17 0 10 0) (clock 3 17 0 11 0) armedState
    rfl (by decide) (by decide)).2.2.2.1

/-! ## Stop -/

/-- C5: stopping twice gives the same state as stopping once; the second call issues no
call at all (no timer cancellation, no release of the sleep inhibition); over both calls
the release `SetThreadExecutionState(ES_CONTINUOUS)` is issued once when the timer was
active and not at all when it was not. -/
theorem StopTimer_idempotent (s : ARCCApp) :
    (StopTimer (StopTimer s).1).1 = (StopTimer s).1 ∧
    (StopTimer (StopTimer s).1).2 = [] ∧
    (StopTimer s).1.m_bTimerActive = false ∧
    ((StopTimer s).2 ++ (StopTimer (StopTimer s).1).2).count
      (Effect.SetThreadExecutionState ES_CONTINUOUS) = (if s.m_bTimerActive then 1 else 0) := by
  cases h : s.m_bTimerActive <;> simp [StopTimer, h]

/-! ## Start needs a target -/

/-- C6: from a stopped state, `ToggleTimer` (and a click on the start button, which
reaches it) does nothing when no target window is held: no call is issued, so the sleep
inhibition is not touched, and the state, with its fire instant and hour offset, is
returned as it was, still stopped; when a target is held the timer ends up armed, with
both timers set and the sleep inhibition requested. -/
theorem ToggleTimer_requires_target (hook now : Nat) (s : ARCCApp)
    (hstop : s.m_bTimerActive = false) :
    (s.m_hTargetWindow = 0 →
      ToggleTimer now s = (s, []) ∧
      HandleContentClick hook now startClick s = (s, []) ∧
      (ToggleTimer now s).1.m_bTimerActive = false ∧
      (ToggleTimer now s).1.m_targetTime = s.m_targetTime ∧
      (ToggleTimer now s).1.m_selectedHourOffset = s.m_selectedHourOffset) ∧
    (s.m_hTargetWindow ≠ 0 →
      (ToggleTimer now s).1.m_bTimerActive = true ∧
      HandleContentClick hook now startClick s = ToggleTimer now s ∧
      (ToggleTimer now s).2 =
        [Effect.SetTimer TimerId.TIMER_COUNTDOWN 1000,
         Effect.SetTimer TimerId.TIMER_STATUS_UPDATE 1000,
         Effect.SetThreadExecutionState
           (ES_CONTINUOUS ||| ES_SYSTEM_REQUIRED ||| ES_DISPLAY_REQUIRED),
         Effect.UpdateUI]) := by
  constructor
  · intro h0
    simp [ToggleTimer, HandleContentClick, GetCurrentAppState, startClick, hstop, h0]
  · intro h1
    simp [ToggleTimer, HandleContentClick, GetCurrentAppState, startClick, hstop, h1]

/-- Witness of C6: the initial state (no target) stays as it is, and the sample state
with a target becomes armed. -/
theorem ToggleTimer_requires_target_witness :
    ToggleTimer (clock 3 14 5 0 0) ARCCApp.init = (ARCCApp.init, []) ∧
    (ToggleTimer (clock 3 14 5 0 0) readyState).1.m_bTimerActive = true :=
  ⟨((ToggleTimer_requires_target 5 (clock 3 14 5 0 0) ARCCApp.init rfl).1 rfl).1,
   ((ToggleTimer_requires_target 5 (clock 3 14 5 0 0) readyState rfl).2 (by decide)).1⟩

/-- C7, as stated, fails: in the initial state (no target captured) a start request,
made through `ToggleTimer` or through a click on the start button, issues no call at
all, so no message box with `ERR_NO_TARGET` is shown, and returns the state as it was. -/
theorem ToggleTimer_no_target_is_silent :
    ToggleTimer (clock 3 14 5 0 0) ARCCApp.init = (ARCCApp.init, []) ∧
    HandleContentClick 5 (clock 3 14 5 0 0) startClick ARCCApp.init = (ARCCApp.init, []) ∧
    Effect.MessageBoxA ERR_NO_TARGET ERR_TITLE (MB_OK ||| MB_ICONERROR) ∉
      (ToggleTimer (clock 3 14 5 0 0) ARCCApp.init).2 := by
  decide

/-- C7, amended: a start request made with no captured target is turned down without
any signal: no message box (or any other call) is issued and the state is returned as
it was.  The outcome differs from a successful start only in the state afterwards: the
timer is still inactive and the derived state still `Idle`, where a start with a target
leaves the derived state `Waiting`. -/
theorem ToggleTimer_no_target_unsignalled (hook now : Nat) (s : ARCCApp)
    (hstop : s.m_bTimerActive = false) (hnone : s.m_hTargetWindow = 0) :
    ToggleTimer now s = (s, []) ∧
    HandleContentClick hook now startClick s = (s, []) ∧
    (∀ text caption uType, Effect.MessageBoxA text caption uType ∉ (ToggleTimer now s).2) ∧
    GetCurrentAppState (ToggleTimer now s).1 = AppState.Idle ∧
    (∀ t : ARCCApp, t.m_bTimerActive = false → t.m_hTargetWindow ≠ 0 →
      GetCurrentAppState (ToggleTimer now t).1 = AppState.Waiting) := by
  refine ⟨?_, ?_, ?_, ?_, ?_⟩
  · simp [ToggleTimer, hstop, hnone]
  · simp [HandleContentClick, GetCurrentAppState, startClick, hstop, hnone]
  · simp [ToggleTimer, hstop, hnone]
  · simp [ToggleTimer, GetCurrentAppState, hstop, hnone]
  · intro t ht1 ht2
    simp [ToggleTimer, GetCurrentAppState, ht1, ht2]

/-- Witness of the amended C7 at the initial state. -/
theorem ToggleTimer_no_target_unsignalled_witness :
    GetCurrentAppState (ToggleTimer (clock 3 14 5 0 0) ARCCApp.init).1 = AppState.Idle :=
  (ToggleTimer_no_target_unsignalled 5 (clock 3 14 5 0 0) ARCCApp.init rfl rfl).2.2.2.1

/-! ## Delivery -/

/-- C8: when the target handle is null or the platform reports that it is no longer a
window, `SendResumeMessage` issues exactly one call, the warning box with the
target-gone text: no foreground request, no wait, no key event. -/
theorem SendResumeMessage_target_gone (P : Platform) (s : ARCCApp)
    (hgone : s.m_hTargetWindow = 0 ∨ P.IsWindow s.m_hTargetWindow = false) :
    SendResumeMessage P s =
      [Effect.MessageBoxA ERR_TARGET_GONE WARN_TITLE (MB_OK ||| MB_ICONWARNING)] ∧
    (∀ h, Effect.SetForegroundWindow h ∉ SendResumeMessage P s) ∧
    (∀ ms, Effect.Sleep ms ∉ SendResumeMessage P s) ∧
    (∀ vk fl, Effect.keybd_event vk fl ∉ SendResumeMessage P s) := by
  have h : SendResumeMessage P s =
      [Effect.MessageBoxA ERR_TARGET_GONE WARN_TITLE (MB_OK ||| MB_ICONWARNING)] := by
    simp [SendResumeMessage, hgone]
  simp [h]

/-- Witness of C8: the sample target (window `7`) on a platform where it is gone, and the
initial state, whose handle is null, on a platform where window `7` is alive. -/
theorem SendResumeMessage_target_gone_witness :
    SendResumeMessage platformGone armedState =
      [Effect.MessageBoxA ERR_TARGET_GONE WARN_TITLE (MB_OK ||| MB_ICONWARNING)] ∧
    SendResumeMessage platformLive ARCCApp.init =
      [Effect.MessageBoxA ERR_TARGET_GONE WARN_TITLE (MB_OK ||| MB_ICONWARNING)] :=
  ⟨(SendResumeMessage_target_gone platformGone armedState (Or.inr rfl)).1,
   (SendResumeMessage_target_gone platformLive ARCCApp.init (Or.inl rfl)).1⟩

/-- C9: with a live target window, and a keyboard layout that types each letter of
"RESUME" with shift (as layouts do for capitals), `SendResumeMessage` issues exactly:
foreground request for the target, a 500 ms wait, then for R, E, S, U, M, E in this order
shift down, key down, key up, shift up on the key `VkKeyScanA` names for the letter, then
Enter down and Enter up, and nothing after it.  The function returns no state: it is a
`const` member and writes none. -/
theorem SendResumeMessage_live (P : Platform) (s : ARCCApp)
    (hpresent : s.m_hTargetWindow ≠ 0) (hlive : P.IsWindow s.m_hTargetWindow = true)
    (hshift : ∀ c ∈ ['R', 'E', 'S', 'U', 'M'], HIBYTE (P.VkKeyScanA c) &&& 1 = 1) :
    RESUME_MESSAGE.toList = ['R', 'E', 'S', 'U', 'M', 'E'] ∧
    SendResumeMessage P s =
      [Effect.SetForegroundWindow s.m_hTargetWindow, Effect.Sleep 500,
       Effect.keybd_event VK_SHIFT 0,
       Effect.keybd_event (LOBYTE (P.VkKeyScanA 'R')) 0,
       Effect.keybd_event (LOBYTE (P.VkKeyScanA 'R')) KEYEVENTF_KEYUP,
       Effect.keybd_event VK_SHIFT KEYEVENTF_KEYUP,
       Effect.keybd_event VK_SHIFT 0,
       Effect.keybd_event (LOBYTE (P.VkKeyScanA 'E')) 0,
       Effect.keybd_event (LOBYTE (P.VkKeyScanA 'E')) KEYEVENTF_KEYUP,
       Effect.keybd_event VK_SHIFT KEYEVENTF_KEYUP,
       Effect.keybd_event VK_SHIFT 0,
       Effect.keybd_event (LOBYTE (P.VkKeyScanA 'S')) 0,
       Effect.keybd_event (LOBYTE (P.VkKeyScanA 'S')) KEYEVENTF_KEYUP,
       Effect.keybd_event VK_SHIFT KEYEVENTF_KEYUP,
       Effect.keybd_event VK_SHIFT 0,
       Effect.keybd_event (LOBYTE (P.VkKeyScanA 'U')) 0,
       Effect.keybd_event (LOBYTE (P.VkKeyScanA 'U')) KEYEVENTF_KEYUP,
       Effect.keybd_event VK_SHIFT KEYEVENTF_KEYUP,
       Effect.keybd_event VK_SHIFT 0,
       Effect.keybd_event (LOBYTE (P.VkKeyScanA 'M')) 0,
       Effect.keybd_event (LOBYTE (P.VkKeyScanA 'M')) KEYEVENTF_KEYUP,
       Effect.keybd_event VK_SHIFT KEYEVENTF_KEYUP,
       Effect.keybd_event VK_SHIFT 0,
       Effect.keybd_event (LOBYTE (P.VkKeyScanA 'E')) 0,
       Effect.keybd_event (LOBYTE (P.VkKeyScanA 'E')) KEYEVENTF_KEYUP,
       Effect.keybd_event VK_SHIFT KEYEVENTF_KEYUP,
       Effect.keybd_event VK_RETURN 0,
       Effect.keybd_event VK_RETURN KEYEVENTF_KEYUP] := by
  have hmsg : RESUME_MESSAGE.toList = ['R', 'E', 'S', 'U', 'M', 'E'] := rfl
  have hR := hshift 'R' (by simp)
  have hE := hshift 'E' (by simp)
  have hS := hshift 'S' (by simp)
  have hU := hshift 'U' (by simp)
  have hM := hshift 'M' (by simp)
  refine ⟨hmsg, ?_⟩
  simp [SendResumeMessage, hpresent, hlive, hmsg, sendChars, sendChar, hR, hE, hS, hU, hM]

/-- Witness of C9: the sample target on the platform where it is alive; the keys are the
virtual-key codes of R, E, S, U, M, E. -/
theorem SendResumeMessage_live_witness :
    LOBYTE (platformLive.VkKeyScanA 'R') = 0x52 ∧
    (SendResumeMessage platformLive armedState).take 6 =
      [Effect.SetForegroundWindow 7, Effect.Sleep 500,
       Effect.keybd_event VK_SHIFT 0, Effect.keybd_event 0x52 0,
       Effect.keybd_event 0x52 KEYEVENTF_KEYUP, Effect.keybd_event VK_SHIFT KEYEVENTF_KEYUP] ∧
    (SendResumeMessage platformLive armedState).length = 28 := by
  have h := (SendResumeMessage_live platformLive armedState (by decide) (by decide)
    (by decide)).2
  refine ⟨by decide, ?_, ?_⟩
  · rw [h]; decide
  · rw [h]; decide

/-! ## Capture: the denylist -/

/-- C10: while capturing, a left-button press over a window whose process name resolves
to `explorer` or `arcc` is passed on (`CallNextHookEx` on the installed hook is the only
call: the hook is not removed) and captures nothing: the target handle and title stay as
they were (absent when absent), the session is still capturing and still holds its hook.
The only member written is `m_targetProcessName`, which now holds the resolved name. -/
theorem HandleInputHook_denylist (ev : HookEvent) (s : ARCCApp)
    (hcap : s.m_bCapturing = true) (hcode : 0 ≤ ev.nCode) (hmsg : ev.wParam = WM_LBUTTONDOWN)
    (hwnd : ev.windowFromPoint ≠ 0)
    (hdeny : (lookupProcessName ev s).m_targetProcessName = PROCESS_EXPLORER ∨
      (lookupProcessName ev s).m_targetProcessName = PROCESS_ARCC) :
    InputHookProc ev s = HandleInputHook ev s ∧
    (HandleInputHook ev s).2 = [Effect.CallNextHookEx s.m_hInputHook] ∧
    (HandleInputHook ev s).1 =
      { s with m_targetProcessName := (lookupProcessName ev s).m_targetProcessName } ∧
    (HandleInputHook ev s).1.m_hTargetWindow = s.m_hTargetWindow ∧
    (HandleInputHook ev s).1.m_targetWindowTitle = s.m_targetWindowTitle ∧
    (HandleInputHook ev s).1.m_bCapturing = true ∧
    (HandleInputHook ev s).1.m_hInputHook = s.m_hInputHook := by
  have hl : lookupProcessName ev s =
      { s with m_targetProcessName := (lookupProcessName ev s).m_targetProcessName } := by
    unfold lookupProcessName
    cases ev.snapshot <;> rfl
  have hh : (lookupProcessName ev s).m_hInputHook = s.m_hInputHook := by rw [hl]
  have h : HandleInputHook ev s =
      (lookupProcessName ev s, [Effect.CallNextHookEx s.m_hInputHook]) := by
    simp [HandleInputHook, hcode, hmsg, hwnd, hdeny, hh]
  refine ⟨by simp [InputHookProc, hcap], by rw [h], by rw [h]; exact hl, ?_, ?_, ?_, ?_⟩
  · rw [h, hl]
  · rw [h, hl]
  · rw [h, hl]; exact hcap
  · rw [h, hl]

/-- Witness of C10: in the capturing sample state a press over a window of
`explorer.exe`, and one over a window of `arcc.exe`, leave the target handle null. -/
theorem HandleInputHook_denylist_witness :
    (HandleInputHook (clickOn [⟨1, "System"⟩, ⟨4, "explorer.exe"⟩]) capturingState).1.m_hTargetWindow = 0 ∧
    (HandleInputHook (clickOn [⟨4, "arcc.exe"⟩]) capturingState).1.m_bCapturing = true :=
  ⟨(HandleInputHook_denylist (clickOn [⟨1, "System"⟩, ⟨4, "explorer.exe"⟩]) capturingState
      rfl (by decide) rfl (by decide) (Or.inl (by decide))).2.2.2.1,
   (HandleInputHook_denylist (clickOn [⟨4, "arcc.exe"⟩]) capturingState
      rfl (by decide) rfl (by decide) (Or.inr (by decide))).2.2.2.2.2.1⟩

/-! ## Capture: unresolved process names -/

/-- C11 fails on the code after a denylisted click.  The session is begun (hook `5`) and
the user first clicks on the application itself: the click is passed on, the session keeps
capturing, and `m_targetProcessName` is left holding `arcc`.  A press over window `9`,
whose process is not in the process list, then finds that stale name: it is filtered like
a denylisted click, no target is captured and the name is not empty.  In the fresh
capturing state the same press is accepted with an empty name. -/
theorem HandleInputHook_unresolved_after_denylisted :
    (run platformLive [beginCapture 5, Event.mouseHook (clickOn [⟨4, "arcc.exe"⟩])]
      ARCCApp.init).1 = { capturingState with m_targetProcessName := "arcc" } ∧
    resolveProcessName clickUnresolved.processId "arcc" [⟨1, "System"⟩, ⟨2, "notepad.exe"⟩]
      = "arcc" ∧
    InputHookProc clickUnresolved { capturingState with m_targetProcessName := "arcc" } =
      ({ capturingState with m_targetProcessName := "arcc" }, [Effect.CallNextHookEx 5]) ∧
    (InputHookProc clickUnresolved capturingState).1 =
      { ARCCApp.init with m_hTargetWindow := 9, m_targetWindowTitle := "Ghost",
                          m_targetProcessName := "" } := by
  decide

/-! ## Capture: the process name -/

/-- C12 fails on the code for a base that contains `.exe`: the file name
`my.exe.tool.exe` resolves to `my`, not to `my.exe.tool`, since the name is cut at the
first `.exe` found, not at the trailing one.  A base without `.exe` is resolved as
claimed (`notepad.exe` gives `notepad`). -/
theorem stripExe_cuts_at_first_occurrence :
    stripExe ("my.exe.tool" ++ FILE_EXT_EXE) = "my" ∧
    stripExe ("my.exe.tool" ++ FILE_EXT_EXE) ≠ "my.exe.tool" ∧
    resolveProcessName 4 "" [⟨4, "my.exe.tool.exe"⟩] = "my" ∧
    stripExe ("notepad" ++ FILE_EXT_EXE) = "notepad" := by
  decide

/-! ## Capture: begin and cancel -/

/-- C13: `StartWindowCapture` with the hook installed (`hook ≠ 0`) leaves the target
cleared (null handle, empty title and process name) and the session capturing with the
hook handle held; with the installation failed (`hook = 0`) it shows the error box with
`ERR_HOOK_FAILED` and leaves the session idle: capturing flag false and no hook handle
held. -/
theorem StartWindowCapture_postcondition (hook : Nat) (s : ARCCApp) :
    (hook ≠ 0 →
      (StartWindowCapture hook s).1 =
        { s with m_hTargetWindow := 0, m_targetWindowTitle := "", m_targetProcessName := "",
                 m_bCapturing := true, m_hInputHook := hook } ∧
      (StartWindowCapture hook s).2 = [Effect.UpdateUI, Effect.SetWindowsHookEx hook]) ∧
    (hook = 0 →
      (StartWindowCapture hook s).1.m_bCapturing = false ∧
      (StartWindowCapture hook s).1.m_hInputHook = 0 ∧
      (StartWindowCapture hook s).2 =
        [Effect.UpdateUI, Effect.SetWindowsHookEx 0,
         Effect.MessageBoxA ERR_HOOK_FAILED ERR_TITLE (MB_OK ||| MB_ICONERROR),
         Effect.UpdateUI]) := by
  constructor
  · intro h
    simp [StartWindowCapture, h]
  · intro h
    simp [StartWindowCapture, h]

/-- C14: while capturing, the Escape key and the loss of focus clear the target (null
handle, empty title and process name), remove the hook the session holds and leave the
session idle; while not capturing, the Escape key and the loss of focus issue no call
and return the state as it was. -/
theorem cancel_on_escape_or_focus_loss (P : Platform) (now hook : Nat) (s : ARCCApp) :
    (s.m_bCapturing = true →
      HandleWindowMessage P now hook (Message.WM_KEYDOWN VK_ESCAPE) s =
        HandleWindowMessage P now hook Message.WM_KILLFOCUS s ∧
      (HandleWindowMessage P now hook Message.WM_KILLFOCUS s).1 =
        { s with m_hTargetWindow := 0, m_targetWindowTitle := "", m_targetProcessName := "",
                 m_hInputHook := 0, m_bCapturing := false } ∧
      (HandleWindowMessage P now hook Message.WM_KILLFOCUS s).2 =
        (if s.m_hInputHook ≠ 0 then [Effect.UnhookWindowsHookEx s.m_hInputHook] else []) ++
          [Effect.UpdateUI]) ∧
    (s.m_bCapturing = false →
      HandleWindowMessage P now hook (Message.WM_KEYDOWN VK_ESCAPE) s = (s, []) ∧
      HandleWindowMessage P now hook Message.WM_KILLFOCUS s = (s, [])) := by
  constructor
  · intro h
    by_cases hh : s.m_hInputHook = 0
    · simp [HandleWindowMessage, cancelCapture, StopWindowCapture, h, hh]
    · simp [HandleWindowMessage, cancelCapture, StopWindowCapture, h, hh]
  · intro h
    simp [HandleWindowMessage, h]

/-- Witness of C13: from the sample state with a target, a successful installation (hook
`5`) and a failed one. -/
theorem StartWindowCapture_postcondition_witness :
    (StartWindowCapture 5 readyState).1 =
      { ARCCApp.init with m_bCapturing := true, m_hInputHook := 5, m_selectedHourOffset := 2 } ∧
    (StartWindowCapture 0 readyState).1.m_bCapturing = false :=
  ⟨((StartWindowCapture_postcondition 5 readyState).1 (by decide)).1,
   ((StartWindowCapture_postcondition 0 readyState).2 rfl).1⟩

/-- Witness of C14: focus lost in the capturing sample state, and Escape pressed in the
sample state that is not capturing. -/
theorem cancel_on_escape_or_focus_loss_witness :
    (HandleWindowMessage platformLive 0 0 Message.WM_KILLFOCUS capturingState).2 =
      [Effect.UnhookWindowsHookEx 5, Effect.UpdateUI] ∧
    HandleWindowMessage platformLive 0 0 (Message.WM_KEYDOWN VK_ESCAPE) readyState =
      (readyState, []) :=
  ⟨((cancel_on_escape_or_focus_loss platformLive 0 0 capturingState).1 rfl).2.2,
   ((cancel_on_escape_or_focus_loss platformLive 0 0 readyState).2 rfl).1⟩

/-! ## Capture: ownership of the hook -/

/-- C15 fails on the code when the target button is clicked while already capturing.
After a first click on the target button (hook `5` installed) the user clicks it again;
the mouse hook sees that click over the application itself and passes it on, and the
click handler runs `StartWindowCapture` again: hook `6` is installed and stored over
`5`, which is never removed.  Two hooks are installed while capturing, and after Escape
one is still installed while idle. -/
theorem StartWindowCapture_twice_leaks_hook :
    installedHooks [] (run platformLive [beginCapture 5] ARCCApp.init).2 = [5] ∧
    (run platformLive
      [beginCapture 5, Event.mouseHook (clickOn [⟨4, "arcc.exe"⟩]), beginCapture 6]
      ARCCApp.init).1.m_bCapturing = true ∧
    installedHooks [] (run platformLive
      [beginCapture 5, Event.mouseHook (clickOn [⟨4, "arcc.exe"⟩]), beginCapture 6]
      ARCCApp.init).2 = [6, 5] ∧
    (run platformLive
      [beginCapture 5, Event.mouseHook (clickOn [⟨4, "arcc.exe"⟩]), beginCapture 6,
       Event.message 0 0 (Message.WM_KEYDOWN VK_ESCAPE)]
      ARCCApp.init).1.m_bCapturing = false ∧
    installedHooks [] (run platformLive
      [beginCapture 5, Event.mouseHook (clickOn [⟨4, "arcc.exe"⟩]), beginCapture 6,
       Event.message 0 0 (Message.WM_KEYDOWN VK_ESCAPE)]
      ARCCApp.init).2 = [5] := by
  decide

/-! ## Derived state -/

/-- C16: `GetCurrentAppState` is `Waiting` exactly when the timer is active, `Ready`
exactly when the timer is stopped and a target is held, `Idle` exactly when the timer is
stopped and no target is held; two states that agree on the timer flag and on whether a
target is held have the same derived state. -/
theorem GetCurrentAppState_projection (s : ARCCApp) :
    (GetCurrentAppState s = AppState.Waiting ↔ s.m_bTimerActive = true) ∧
    (GetCurrentAppState s = AppState.Ready ↔
      s.m_bTimerActive = false ∧ s.m_hTargetWindow ≠ 0) ∧
    (GetCurrentAppState s = AppState.Idle ↔
      s.m_bTimerActive = false ∧ s.m_hTargetWindow = 0) ∧
    (∀ t : ARCCApp, t.m_bTimerActive = s.m_bTimerActive →
      (t.m_hTargetWindow = 0 ↔ s.m_hTargetWindow = 0) →
      GetCurrentAppState t = GetCurrentAppState s) := by
  refine ⟨?_, ?_, ?_, ?_⟩
  · cases h : s.m_bTimerActive <;> by_cases h0 : s.m_hTargetWindow = 0 <;>
      simp [GetCurrentAppState, h, h0]
  · cases h : s.m_bTimerActive <;> by_cases h0 : s.m_hTargetWindow = 0 <;>
      simp [GetCurrentAppState, h, h0]
  · cases h : s.m_bTimerActive <;> by_cases h0 : s.m_hTargetWindow = 0 <;>
      simp [GetCurrentAppState, h, h0]
  · intro t ht h0
    cases h : s.m_bTimerActive <;> by_cases hs : s.m_hTargetWindow = 0 <;>
      simp [GetCurrentAppState, ht, h, h0, hs]

/-! ## Hour labels -/

/-- C17: `GetNext5HourTimes` returns exactly 5 labels; label `i` is the label of the hour
of the instant `futureTime now i`; the first instant is the next whole-hour boundary after
`now` (a multiple of one hour, strictly after `now`, at most one hour after it), each
further instant is exactly one hour after the one before, so the instants increase
strictly. -/
theorem GetNext5HourTimes_instants (now : Nat) :
    (GetNext5HourTimes now).length = 5 ∧
    GetNext5HourTimes now =
      [0, 1, 2, 3, 4].map
        (fun i => hourLabel (localtime_s (to_time_t (futureTime now i))).tm_hour) ∧
    futureTime now 0 = from_time_t ((to_time_t now / 3600 + 1) * 3600) ∧
    now < futureTime now 0 ∧ futureTime now 0 ≤ now + hours 1 ∧
    (∀ i, futureTime now (i + 1) = futureTime now i + hours 1) ∧
    (∀ i, futureTime now i < futureTime now (i + 1)) ∧
    List.Pairwise (· < ·) ([0, 1, 2, 3, 4].map (futureTime now)) ∧
    (∀ i, (localtime_s (to_time_t (futureTime now i))).tm_min = 0 ∧
      (localtime_s (to_time_t (futureTime now i))).tm_sec = 0) := by
  have h0 : futureTime now 0 = from_time_t ((to_time_t now / 3600 + 1) * 3600) := by
    simp only [futureTime, nextHour, localtime_s, mktime, from_time_t, to_time_t, hours,
      TICKS_PER_SECOND]
    omega
  have hstep : ∀ i, futureTime now (i + 1) = futureTime now i + hours 1 := by
    intro i
    simp only [futureTime, hours, TICKS_PER_SECOND]
    omega
  have hlt : ∀ i, futureTime now i < futureTime now (i + 1) := by
    intro i
    rw [hstep i]
    simp only [hours, TICKS_PER_SECOND]
    omega
  refine ⟨by simp [GetNext5HourTimes, HOUR_COUNT], by rfl, h0, ?_, ?_, hstep, hlt, ?_, ?_⟩
  · rw [h0]; simp only [from_time_t, to_time_t, TICKS_PER_SECOND]; omega
  · rw [h0]; simp only [from_time_t, to_time_t, hours, TICKS_PER_SECOND]; omega
  · simp [futureTime, hours, TICKS_PER_SECOND]
  · intro i
    simp only [futureTime, nextHour, localtime_s, mktime, from_time_t, to_time_t, hours,
      TICKS_PER_SECOND]
    omega

/-- C18: for every hour `h` of the day the label is the decimal number `h mod 12`, or
12 when that is 0, followed by `am` when `h < 12` and by `pm` otherwise; the number lies
in 1..12, midnight reads `12am`, noon reads `12pm`, and the 24 labels are the ones
listed: none shows 0. -/
theorem hourLabel_twelve_hour :
    (∀ h, h < 24 →
      hourLabel h = toString (if h % 12 = 0 then 12 else h % 12) ++
        (if h < 12 then "am" else "pm") ∧
      1 ≤ (if h % 12 = 0 then 12 else h % 12) ∧ (if h % 12 = 0 then 12 else h % 12) ≤ 12) ∧
    hourLabel 0 = "12am" ∧ hourLabel 12 = "12pm" ∧
    (List.range 24).map hourLabel =
      ["12am", "1am", "2am", "3am", "4am", "5am", "6am", "7am", "8am", "9am", "10am", "11am",
       "12pm", "1pm", "2pm", "3pm", "4pm", "5pm", "6pm", "7pm", "8pm", "9pm", "10pm", "11pm"] ∧
    (∀ now, ∀ l ∈ GetNext5HourTimes now, l ∈ (List.range 24).map hourLabel) := by
  refine ⟨by decide, by decide, by decide, by decide, ?_⟩
  intro now l hl
  simp only [GetNext5HourTimes, List.mem_map, List.mem_range] at hl ⊢
  obtain ⟨i, _, rfl⟩ := hl
  refine ⟨(localtime_s (to_time_t (futureTime now i))).tm_hour, ?_, rfl⟩
  simp only [localtime_s]
  omega

/-! ## Countdown text -/

/-- A positive `duration_cast_seconds` of `T - N` is the natural-number quotient of the
tick difference. -/
theorem duration_cast_seconds_pos (T N : Nat)
    (h : 0 < duration_cast_seconds ((T : Int) - (N : Int))) :
    duration_cast_seconds ((T : Int) - (N : Int)) =
      (((T - N) / TICKS_PER_SECOND : Nat) : Int) := by
  unfold duration_cast_seconds at h ⊢
  simp only [TICKS_PER_SECOND] at h ⊢
  split_ifs at h ⊢ <;> omega

/-- C19: in an armed state let `d` be the tick difference fire instant minus `now`
truncated to whole seconds.  If `d > 0` then `d` is the natural number
`r = (fire - now) / ticks per second` and the text is `Resuming in ` followed by
`HH:MM:SS` with `HH = r / 3600`, `MM = (r mod 3600) / 60`, `SS = r mod 60`, each padded
with zeros to two digits, where `MM, SS ≤ 59` and `HH*3600 + MM*60 + SS = r`; a field
below 100 is shown as exactly two digits.  If `d ≤ 0` the text is empty, so no negative
duration is ever shown; and when the timer is not active the text is empty. -/
theorem GetCountdownText_format (now : Nat) (s : ARCCApp)
    (harmed : s.m_bTimerActive = true) :
    (0 < duration_cast_seconds ((s.m_targetTime : Int) - (now : Int)) →
      duration_cast_seconds ((s.m_targetTime : Int) - (now : Int)) =
        (((s.m_targetTime - now) / TICKS_PER_SECOND : Nat) : Int) ∧
      GetCountdownText now s =
        "Resuming in " ++ setw2 ((s.m_targetTime - now) / TICKS_PER_SECOND / 3600) ++ ":" ++
          setw2 ((s.m_targetTime - now) / TICKS_PER_SECOND % 3600 / 60) ++ ":" ++
          setw2 ((s.m_targetTime - now) / TICKS_PER_SECOND % 60)) ∧
    (duration_cast_seconds ((s.m_targetTime : Int) - (now : Int)) ≤ 0 →
      GetCountdownText now s = "") ∧
    (s.m_targetTime - now) / TICKS_PER_SECOND % 3600 / 60 < 60 ∧
    (s.m_targetTime - now) / TICKS_PER_SECOND % 60 < 60 ∧
    (s.m_targetTime - now) / TICKS_PER_SECOND / 3600 * 3600 +
      (s.m_targetTime - now) / TICKS_PER_SECOND % 3600 / 60 * 60 +
      (s.m_targetTime - now) / TICKS_PER_SECOND % 60 = (s.m_targetTime - now) / TICKS_PER_SECOND ∧
    (∀ n, n < 100 →
      setw2 n = String.mk [Char.ofNat (48 + n / 10), Char.ofNat (48 + n % 10)]) ∧
    (∀ t : ARCCApp, t.m_bTimerActive = false → GetCountdownText now t = "") := by
  refine ⟨?_, ?_, by omega, by omega, by omega, by decide, ?_⟩
  · intro hpos
    have hd := duration_cast_seconds_pos s.m_targetTime now hpos
    refine ⟨hd, ?_⟩
    have e1 : (((((s.m_targetTime - now) / TICKS_PER_SECOND : Nat) : Int)) / 3600).toNat =
        (s.m_targetTime - now) / TICKS_PER_SECOND / 3600 := by omega
    have e2 : (((((s.m_targetTime - now) / TICKS_PER_SECOND : Nat) : Int)) % 3600 / 60).toNat =
        (s.m_targetTime - now) / TICKS_PER_SECOND % 3600 / 60 := by omega
    have e3 : (((((s.m_targetTime - now) / TICKS_PER_SECOND : Nat) : Int)) % 60).toNat =
        (s.m_targetTime - now) / TICKS_PER_SECOND % 60 := by omega
    have hpos2 : (0 : Int) < (((s.m_targetTime - now) / TICKS_PER_SECOND : Nat) : Int) := by
      rw [← hd]; exact hpos
    simp only [GetCountdownText, harmed, hd, e1, e2, e3, gt_iff_lt, hpos2, Bool.true_eq_false,
      if_true, if_false]
  · intro hle
    simp only [GetCountdownText, harmed]
    simp [Int.not_lt.mpr hle]
  · intro t ht
    simp [GetCountdownText, ht]

/-- Witness of C19: the armed sample state (fire instant 17:00:10) read at 14:05:00 and
one tick shows 02:55:09. -/
theorem GetCountdownText_format_witness :
    GetCountdownText (clock 3 14 5 0 1) armedState = "Resuming in 02:55:09" ∧
    GetCountdownText (clock 3 17 0 10 1) armedState = "" := by
  have h := GetCountdownText_format (clock 3 14 5 0 1) armedState rfl
  have h2 := (GetCountdownText_format (clock 3 17 0 10 1) armedState rfl).2.1 (by decide)
  exact ⟨by rw [(h.1 (by decide)).2]; decide, h2⟩

/-! ## Target and armed timer -/

/-- C20, as stated, fails: the target is captured (window `9`), the countdown is started
at 14:05:00, and the target button is clicked again.  `StartWindowCapture` runs without
regard to the timer and clears the target: the timer is active, no target is held, and
the derived state is `Waiting`. -/
theorem armed_without_target_reachable :
    (run platformLive
      [beginCapture 5, Event.mouseHook (clickOn [⟨4, "notepad.exe"⟩]),
       startEvent (clock 3 14 5 0 0), beginCapture 6] ARCCApp.init).1.m_bTimerActive = true ∧
    (run platformLive
      [beginCapture 5, Event.mouseHook (clickOn [⟨4, "notepad.exe"⟩]),
       startEvent (clock 3 14 5 0 0), beginCapture 6] ARCCApp.init).1.m_hTargetWindow = 0 ∧
    GetCurrentAppState (run platformLive
      [beginCapture 5, Event.mouseHook (clickOn [⟨4, "notepad.exe"⟩]),
       startEvent (clock 3 14 5 0 0), beginCapture 6] ARCCApp.init).1 = AppState.Waiting := by
  decide

/-- One event keeps `targetInv`, unless it is a click on the target button made while
the timer is active. -/
theorem dispatch_keeps_targetInv (P : Platform) (e : Event) (s : ARCCApp)
    (hinv : targetInv s)
    (hg : ¬ (clicksTargetButton e = true ∧ s.m_bTimerActive = true)) :
    targetInv (dispatch P e s).1 := by
  obtain ⟨h1, h2⟩ := hinv
  cases e with
  | message now hook msg =>
    cases msg with
    | WM_TIMER timerID =>
      cases timerID <;>
        simp only [dispatch, HandleWindowMessage, OnTimer, CheckCountdown, StopTimer, targetInv] <;>
        (try split_ifs) <;> simp_all
    | WM_KEYDOWN wParam =>
      simp only [dispatch, HandleWindowMessage, cancelCapture, StopWindowCapture, targetInv]
      split_ifs <;> simp_all
    | WM_KILLFOCUS =>
      simp only [dispatch, HandleWindowMessage, cancelCapture, StopWindowCapture, targetInv]
      split_ifs <;> simp_all
    | WM_LBUTTONDOWN pos =>
      cases pos with
      | titleBar => exact ⟨h1, h2⟩
      | content hit =>
        simp only [clicksTargetButton] at hg
        simp only [dispatch, HandleWindowMessage, OnMouseLeftClick, HandleContentClick,
          StartWindowCapture, GetCurrentAppState, ToggleTimer, StopTimer, targetInv]
        split_ifs <;> (try split) <;> simp_all
    | WM_DESTROY =>
      simp only [dispatch, HandleWindowMessage, StopTimer, targetInv]
      split_ifs <;> simp_all
    | OTHER => exact ⟨h1, h2⟩
  | mouseHook ev =>
    have hl : (lookupProcessName ev s).m_hTargetWindow = s.m_hTargetWindow ∧
        (lookupProcessName ev s).m_bCapturing = s.m_bCapturing ∧
        (lookupProcessName ev s).m_bTimerActive = s.m_bTimerActive ∧
        (lookupProcessName ev s).m_hInputHook = s.m_hInputHook := by
      unfold lookupProcessName
      cases ev.snapshot <;> simp
    obtain ⟨hl1, hl2, hl3, hl4⟩ := hl
    simp only [dispatch, InputHookProc, HandleInputHook, StopWindowCapture, targetInv]
    split_ifs <;> (try split) <;> simp_all

/-- Runs keep `targetInv` as long as the target button is not clicked while the timer is
active. -/
theorem run_keeps_targetInv (P : Platform) (es : List Event) (s : ARCCApp)
    (hinv : targetInv s) (hg : noCaptureWhileArmed P es s) :
    targetInv (run P es s).1 := by
  induction es generalizing s with
  | nil => exact hinv
  | cons e es ih =>
    obtain ⟨hg1, hg2⟩ := hg
    exact ih (dispatch P e s).1 (dispatch_keeps_targetInv P e s hinv hg1) hg2

/-- C20, amended: in every state reached from the initial state by a run of events
(window messages: clicks, keys, focus loss, timer ticks; and mouse-hook calls) in which
the target button is not clicked while the timer is active, an active timer implies that
a target window is held (and a capturing session implies that none is held), so the
derived state `Waiting` comes with a target. -/
theorem timer_active_implies_target (P : Platform) (es : List Event)
    (hg : noCaptureWhileArmed P es ARCCApp.init) :
    ((run P es ARCCApp.init).1.m_bTimerActive = true →
      (run P es ARCCApp.init).1.m_hTargetWindow ≠ 0) ∧
    ((run P es ARCCApp.init).1.m_bCapturing = true →
      (run P es ARCCApp.init).1.m_hTargetWindow = 0) ∧
    (GetCurrentAppState (run P es ARCCApp.init).1 = AppState.Waiting →
      (run P es ARCCApp.init).1.m_hTargetWindow ≠ 0) := by
  have h := run_keeps_targetInv P es ARCCApp.init ⟨by decide, by decide⟩ hg
  refine ⟨h.2, h.1, ?_⟩
  intro hw
  apply h.2
  cases ha : (run P es ARCCApp.init).1.m_bTimerActive
  · simp [GetCurrentAppState, ha] at hw
    split_ifs at hw
  · rfl

/-- Witness of the amended C20: target captured, then the countdown started; the timer is
active and window `9` is held. -/
theorem timer_active_implies_target_witness :
    (run platformLive
      [beginCapture 5, Event.mouseHook (clickOn [⟨4, "notepad.exe"⟩]),
       startEvent (clock 3 14 5 0 0)] ARCCApp.init).1.m_bTimerActive = true ∧
    (run platformLive
      [beginCapture 5, Event.mouseHook (clickOn [⟨4, "notepad.exe"⟩]),
       startEvent (clock 3 14 5 0 0)] ARCCApp.init).1.m_hTargetWindow ≠ 0 :=
  ⟨by decide,
   (timer_active_implies_target platformLive
      [beginCapture 5, Event.mouseHook (clickOn [⟨4, "notepad.exe"⟩]),
       startEvent (clock 3 14 5 0 0)]
      (And.intro (by decide) (And.intro (by decide) (And.intro (by decide) trivial)))).1
      (by decide)⟩

/-! ## Hour selection -/

/-- C21, as stated, fails for armed states: in the armed sample state (offset 2, fire
instant 17:00:10) a click on hour button 0 sets the selected offset to 0. -/
theorem hour_click_while_armed_changes_offset :
    armedState.m_bTimerActive = true ∧ armedState.m_selectedHourOffset = 2 ∧
    (HandleContentClick 0 (clock 3 14 5 0 0) (hourClick 0) armedState).1.m_selectedHourOffset
      = 0 ∧
    (HandleContentClick 0 (clock 3 14 5 0 0) (hourClick 0) armedState).1.m_bTimerActive
      = true := by
  decide

/-- C21, amended: a click that lands on hour button `i` (`i` in 0..4, no button tested
before it hit) stores `i` as the selected hour offset in every state, armed or stopped,
and changes nothing else: in an armed state the timer stays active with the same fire
instant. -/
theorem hour_click_sets_offset (hook now i : Nat) (hit : ContentHit) (s : ARCCApp)
    (hi : i < HOUR_COUNT) (h1 : hit.inTargetButton = false) (h2 : hit.inStartButton = false)
    (h3 : hit.inHourButton i = true) (h4 : ∀ j, j < i → hit.inHourButton j = false) :
    HandleContentClick hook now hit s =
      ({ s with m_selectedHourOffset := i }, [Effect.InvalidateRect]) ∧
    (HandleContentClick hook now hit s).1.m_selectedHourOffset = i ∧
    (HandleContentClick hook now hit s).1.m_bTimerActive = s.m_bTimerActive ∧
    (HandleContentClick hook now hit s).1.m_targetTime = s.m_targetTime := by
  have hr : List.range HOUR_COUNT = [0, 1, 2, 3, 4] := by decide
  have hf : (List.range HOUR_COUNT).find? hit.inHourButton = some i := by
    rw [hr]
    simp only [HOUR_COUNT] at hi
    interval_cases i
    · simp [List.find?, h3]
    · simp [List.find?, h3, h4 0 (by omega)]
    · simp [List.find?, h3, h4 0 (by omega), h4 1 (by omega)]
    · simp [List.find?, h3, h4 0 (by omega), h4 1 (by omega), h4 2 (by omega)]
    · simp [List.find?, h3, h4 0 (by omega), h4 1 (by omega), h4 2 (by omega),
        h4 3 (by omega)]
  have h : HandleContentClick hook now hit s =
      ({ s with m_selectedHourOffset := i }, [Effect.InvalidateRect]) := by
    simp [HandleContentClick, h1, h2, hf]
  simp [h]

/-- Witness of the amended C21: hour button 3 clicked in the stopped sample state and in
the armed one. -/
theorem hour_click_sets_offset_witness :
    (HandleContentClick 0 0 (hourClick 3) readyState).1.m_selectedHourOffset = 3 ∧
    (HandleContentClick 0 0 (hourClick 3) armedState).1.m_selectedHourOffset = 3 :=
  ⟨(hour_click_sets_offset 0 0 3 (hourClick 3) readyState (by decide) rfl rfl (by decide)
      (by decide)).2.1,
   (hour_click_sets_offset 0 0 3 (hourClick 3) armedState (by decide) rfl rfl (by decide)
      (by decide)).2.1⟩

/-! ## After the fire -/

/-- C22: a tick that fires (armed state, clock at or after the fire instant) keeps the
target: handle, window title and process name are the same before and after; the state
after differs from the state before in the timer flag (now false) and the hour offset
(now 0) only. -/
theorem CheckCountdown_keeps_target (P : Platform) (now : Nat) (s : ARCCApp)
    (harmed : s.m_bTimerActive = true) (hdue : s.m_targetTime ≤ now) :
    (CheckCountdown P now s).1.m_hTargetWindow = s.m_hTargetWindow ∧
    (CheckCountdown P now s).1.m_targetWindowTitle = s.m_targetWindowTitle ∧
    (CheckCountdown P now s).1.m_targetProcessName = s.m_targetProcessName ∧
    (CheckCountdown P now s).1 =
      { s with m_bTimerActive := false, m_selectedHourOffset := 0 } := by
  have h : (CheckCountdown P now s).1 =
      { s with m_bTimerActive := false, m_selectedHourOffset := 0 } := by
    simp [CheckCountdown, StopTimer, hdue, harmed]
  simp [h]

/-- Witness of C22: the armed sample state ticked at its fire instant with the target
alive. -/
theorem CheckCountdown_keeps_target_witness :
    (CheckCountdown platformLive (clock 3 17 0 10 0) armedState).1.m_hTargetWindow = 7 ∧
    (CheckCountdown platformLive (clock 3 17 0 10 0) armedState).1.m_targetProcessName =
      "Notepad" :=
  ⟨(CheckCountdown_keeps_target platformLive (clock 3 17 0 10 0) armedState rfl
    (by decide)).1,
   (CheckCountdown_keeps_target platformLive (clock 3 17 0 10 0) armedState rfl
    (by decide)).2.2.1⟩

/-- C23, as stated, fails: after the armed sample state fires at 17:00:10 with its target
window `7` alive (the message is typed), the target handle is still `7`, the title still
"Untitled" and the process name still "Notepad". -/
theorem target_not_cleared_after_fire :
    platformLive.IsWindow armedState.m_hTargetWindow = true ∧
    Effect.SetForegroundWindow 7 ∈
      (CheckCountdown platformLive (clock 3 17 0 10 0) armedState).2 ∧
    (CheckCountdown platformLive (clock 3 17 0 10 0) armedState).1.m_hTargetWindow = 7 ∧
    (CheckCountdown platformLive (clock 3 17 0 10 0) armedState).1.m_targetWindowTitle
      = "Untitled" ∧
    (CheckCountdown platformLive (clock 3 17 0 10 0) armedState).1.m_targetProcessName
      = "Notepad" := by
  decide

/-- C23, amended: after a successful resume fires (a tick at or after the fire instant
with the target window still valid, so that the message is typed) the target is retained:
handle, window title and process name are the same as before, the handle is non-null,
and the derived state is `Ready`, not `Idle`. -/
theorem target_retained_after_fire (P : Platform) (now : Nat) (s : ARCCApp)
    (harmed : s.m_bTimerActive = true) (hdue : s.m_targetTime ≤ now)
    (hpresent : s.m_hTargetWindow ≠ 0) (hlive : P.IsWindow s.m_hTargetWindow = true) :
    Effect.SetForegroundWindow s.m_hTargetWindow ∈ (CheckCountdown P now s).2 ∧
    (CheckCountdown P now s).1.m_hTargetWindow = s.m_hTargetWindow ∧
    (CheckCountdown P now s).1.m_targetWindowTitle = s.m_targetWindowTitle ∧
    (CheckCountdown P now s).1.m_targetProcessName = s.m_targetProcessName ∧
    (CheckCountdown P now s).1.m_hTargetWindow ≠ 0 ∧
    GetCurrentAppState (CheckCountdown P now s).1 = AppState.Ready := by
  have h : (CheckCountdown P now s).1 =
      { s with m_bTimerActive := false, m_selectedHourOffset := 0 } := by
    simp [CheckCountdown, StopTimer, hdue, harmed]
  refine ⟨?_, by simp [h], by simp [h], by simp [h], by simp [h, hpresent],
    by simp [h, GetCurrentAppState, hpresent]⟩
  simp [CheckCountdown, SendResumeMessage, hdue, hpresent, hlive]

/-- Witness of the amended C23 at the armed sample state: after the fire the target is
still window `7`, "Untitled", of "Notepad", and the derived state is `Ready`. -/
theorem target_retained_after_fire_witness :
    (CheckCountdown platformLive (clock 3 17 0 10 0) armedState).1.m_targetWindowTitle
      = "Untitled" ∧
    (CheckCountdown platformLive (clock 3 17 0 10 0) armedState).1.m_targetProcessName
      = "Notepad" ∧
    GetCurrentAppState (CheckCountdown platformLive (clock 3 17 0 10 0) armedState).1 =
      AppState.Ready :=
  ⟨(target_retained_after_fire platformLive (clock 3 17 0 10 0) armedState rfl (by decide)
      (by decide) rfl).2.2.1,
   (target_retained_after_fire platformLive (clock 3 17 0 10 0) armedState rfl (by decide)
      (by decide) rfl).2.2.2.1,
   (target_retained_after_fire platformLive (clock 3 17 0 10 0) armedState rfl (by decide)
      (by decide) rfl).2.2.2.2.2⟩

/-! ## Sleep inhibition -/

/-- The flags after two lists of calls in a row. -/
theorem threadExecutionState_append (flags : Nat) (a b : List Effect) :
    threadExecutionState flags (a ++ b) =
      threadExecutionState (threadExecutionState flags a) b := by
  induction a generalizing flags with
  | nil => rfl
  | cons e a ih => cases e <;> simp [threadExecutionState, ih]

/-- Typing characters does not touch the execution state. -/
theorem threadExecutionState_sendChars (P : Platform) (flags : Nat) (cs : List Char) :
    threadExecutionState flags (sendChars P cs) = flags := by
  induction cs with
  | nil => rfl
  | cons c cs ih =>
    simp only [sendChars, sendChar, threadExecutionState_append]
    split_ifs <;> simp [threadExecutionState, ih]

/-- Delivery does not touch the execution state. -/
theorem threadExecutionState_SendResumeMessage (P : Platform) (flags : Nat) (s : ARCCApp) :
    threadExecutionState flags (SendResumeMessage P s) = flags := by
  unfold SendResumeMessage
  split_ifs
  · simp [threadExecutionState]
  · simp [threadExecutionState_append, threadExecutionState_sendChars, threadExecutionState]

/-- `StopTimer` releases the inhibition when the timer was active and issues nothing
otherwise. -/
theorem StopTimer_sleep_scope (s : ARCCApp) (flags : Nat)
    (hinv : sleepInhibited flags = s.m_bTimerActive) :
    sleepInhibited (threadExecutionState flags (StopTimer s).2) = false ∧
    (StopTimer s).1.m_bTimerActive = false := by
  have hoff : sleepInhibited ES_CONTINUOUS = false := by decide
  cases h : s.m_bTimerActive
  · simp [StopTimer, h, threadExecutionState, hinv]
  · simp [StopTimer, h, threadExecutionState, hoff]

/-- The flags the start branch of `ToggleTimer` sets inhibit sleep. -/
theorem sleepInhibited_start_flags :
    sleepInhibited (ES_CONTINUOUS ||| ES_SYSTEM_REQUIRED ||| ES_DISPLAY_REQUIRED) = true := by
  decide

/-- The flags in force after the four calls of a start are the ones it sets. -/
theorem threadExecutionState_start (flags x : Nat) (a c : TimerId) (b d : Nat) :
    threadExecutionState flags
      [Effect.SetTimer a b, Effect.SetTimer c d, Effect.SetThreadExecutionState x,
       Effect.UpdateUI] = x := rfl

/-- `ToggleTimer` keeps "sleep is inhibited exactly when the timer is active". -/
theorem ToggleTimer_sleep_scope (now : Nat) (s : ARCCApp) (flags : Nat)
    (hinv : sleepInhibited flags = s.m_bTimerActive) :
    sleepInhibited (threadExecutionState flags (ToggleTimer now s).2) =
      (ToggleTimer now s).1.m_bTimerActive := by
  have hstop := StopTimer_sleep_scope s flags hinv
  cases h1 : s.m_bTimerActive
  · by_cases h2 : s.m_hTargetWindow = 0
    · have h : ToggleTimer now s = (s, []) := by simp [ToggleTimer, h1, h2]
      rw [h]
      simpa [threadExecutionState, h1] using hinv
    · have he : (ToggleTimer now s).2 =
          [Effect.SetTimer TimerId.TIMER_COUNTDOWN 1000,
           Effect.SetTimer TimerId.TIMER_STATUS_UPDATE 1000,
           Effect.SetThreadExecutionState
             (ES_CONTINUOUS ||| ES_SYSTEM_REQUIRED ||| ES_DISPLAY_REQUIRED),
           Effect.UpdateUI] := by simp [ToggleTimer, h1, h2]
      have ha : (ToggleTimer now s).1.m_bTimerActive = true := by
        simp [ToggleTimer, h1, h2]
      rw [he, ha, threadExecutionState_start, sleepInhibited_start_flags]
  · have he : (ToggleTimer now s).2 = (StopTimer s).2 ++ [Effect.UpdateUI] := by
      simp [ToggleTimer, h1]
    have ha : (ToggleTimer now s).1.m_bTimerActive = (StopTimer s).1.m_bTimerActive := by
      simp [ToggleTimer, h1]
    rw [he, ha, threadExecutionState_append, hstop.2]
    simpa [threadExecutionState] using hstop.1

/-- `CheckCountdown` keeps "sleep is inhibited exactly when the timer is active". -/
theorem CheckCountdown_sleep_scope (P : Platform) (now : Nat) (s : ARCCApp) (flags : Nat)
    (hinv : sleepInhibited flags = s.m_bTimerActive) :
    sleepInhibited (threadExecutionState flags (CheckCountdown P now s).2) =
      (CheckCountdown P now s).1.m_bTimerActive := by
  have hstop := StopTimer_sleep_scope s flags hinv
  unfold CheckCountdown
  split_ifs
  · simp only [threadExecutionState_append, threadExecutionState_SendResumeMessage,
      threadExecutionState]
    rw [hstop.1, hstop.2]
  · simpa [threadExecutionState] using hinv

/-- The capture functions neither call `SetThreadExecutionState` nor write the timer
flag. -/
theorem capture_leaves_sleep_scope (hook : Nat) (ev : HookEvent) (s : ARCCApp) (flags : Nat) :
    (threadExecutionState flags (StartWindowCapture hook s).2 = flags ∧
      (StartWindowCapture hook s).1.m_bTimerActive = s.m_bTimerActive) ∧
    (threadExecutionState flags (cancelCapture s).2 = flags ∧
      (cancelCapture s).1.m_bTimerActive = s.m_bTimerActive) ∧
    (threadExecutionState flags (InputHookProc ev s).2 = flags ∧
      (InputHookProc ev s).1.m_bTimerActive = s.m_bTimerActive) := by
  have hl : (lookupProcessName ev s).m_bTimerActive = s.m_bTimerActive := by
    unfold lookupProcessName
    cases ev.snapshot <;> simp
  refine ⟨?_, ?_, ?_⟩
  · unfold StartWindowCapture
    split_ifs <;> simp [threadExecutionState]
  · simp only [cancelCapture, StopWindowCapture]
    split_ifs <;> simp [threadExecutionState]
  · simp only [InputHookProc, HandleInputHook, StopWindowCapture]
    split_ifs <;> (try split) <;> simp [threadExecutionState, hl]

/-- One event keeps "sleep is inhibited exactly when the timer is active". -/
theorem dispatch_keeps_sleep_scope (P : Platform) (e : Event) (s : ARCCApp) (flags : Nat)
    (hinv : sleepInhibited flags = s.m_bTimerActive) :
    sleepInhibited (threadExecutionState flags (dispatch P e s).2) =
      (dispatch P e s).1.m_bTimerActive := by
  cases e with
  | message now hook msg =>
    cases msg with
    | WM_TIMER timerID =>
      cases timerID
      · exact CheckCountdown_sleep_scope P now s flags hinv
      · simpa [dispatch, HandleWindowMessage, OnTimer, threadExecutionState] using hinv
      · simpa [dispatch, HandleWindowMessage, OnTimer, threadExecutionState] using hinv
    | WM_KEYDOWN wParam =>
      have hc := (capture_leaves_sleep_scope hook (clickOn []) s flags).2.1
      simp only [dispatch, HandleWindowMessage]
      split_ifs
      · rw [hc.1, hc.2]; exact hinv
      · simpa [threadExecutionState] using hinv
    | WM_KILLFOCUS =>
      have hc := (capture_leaves_sleep_scope hook (clickOn []) s flags).2.1
      simp only [dispatch, HandleWindowMessage]
      split_ifs
      · rw [hc.1, hc.2]; exact hinv
      · simpa [threadExecutionState] using hinv
    | WM_LBUTTONDOWN pos =>
      cases pos with
      | titleBar => simpa [dispatch, HandleWindowMessage, OnMouseLeftClick,
          threadExecutionState] using hinv
      | content hit =>
        have hc := (capture_leaves_sleep_scope hook (clickOn []) s flags).1
        simp only [dispatch, HandleWindowMessage, OnMouseLeftClick, HandleContentClick]
        split_ifs
        · rw [hc.1, hc.2]; exact hinv
        · exact ToggleTimer_sleep_scope now s flags hinv
        · simpa [threadExecutionState] using hinv
        · split <;> simpa [threadExecutionState] using hinv
    | WM_DESTROY =>
      have hstop := StopTimer_sleep_scope s flags hinv
      simp only [dispatch, HandleWindowMessage, threadExecutionState_append,
        threadExecutionState]
      rw [hstop.1, hstop.2]
    | OTHER => simpa [dispatch, HandleWindowMessage, threadExecutionState] using hinv
  | mouseHook ev =>
    have hc := (capture_leaves_sleep_scope 0 ev s flags).2.2
    simp only [dispatch]
    rw [hc.1, hc.2]; exact hinv

/-- Runs keep "sleep is inhibited exactly when the timer is active". -/
theorem run_keeps_sleep_scope (P : Platform) (es : List Event) (s : ARCCApp) (flags : Nat)
    (hinv : sleepInhibited flags = s.m_bTimerActive) :
    sleepInhibited (threadExecutionState flags (run P es s).2) =
      (run P es s).1.m_bTimerActive := by
  induction es generalizing s flags with
  | nil => simpa [run, threadExecutionState] using hinv
  | cons e es ih =>
    simp only [run, threadExecutionState_append]
    exact ih (dispatch P e s).1 _ (dispatch_keeps_sleep_scope P e s flags hinv)

/-- A run followed by one more event. -/
theorem run_snoc (P : Platform) (es : List Event) (e : Event) (s : ARCCApp) :
    (run P (es ++ [e]) s).1 = (dispatch P e (run P es s).1).1 := by
  induction es generalizing s with
  | nil => rfl
  | cons e1 es ih =>
    show (run P (es ++ [e]) (dispatch P e1 s).1).1 = _
    rw [ih]
    rfl

/-- C24: in every state reached from the initial state by a run of events, started with
no sleep inhibition in force, the platform's execution state inhibits sleep exactly when
the timer is active (requested by the start, released by `StopTimer`, also when a tick
fires); and once the window is destroyed (`WM_DESTROY`) after any such run the timer is
stopped and the inhibition released. -/
theorem sleep_inhibition_scoped (P : Platform) (es : List Event) (flags : Nat)
    (hfree : sleepInhibited flags = false) :
    sleepInhibited (threadExecutionState flags (run P es ARCCApp.init).2) =
      (run P es ARCCApp.init).1.m_bTimerActive ∧
    (run P (es ++ [destroyEvent]) ARCCApp.init).1.m_bTimerActive = false ∧
    sleepInhibited (threadExecutionState flags (run P (es ++ [destroyEvent]) ARCCApp.init).2)
      = false := by
  have hinit : sleepInhibited flags = ARCCApp.init.m_bTimerActive := by rw [hfree]; rfl
  have hoff : (run P (es ++ [destroyEvent]) ARCCApp.init).1.m_bTimerActive = false := by
    rw [run_snoc]
    simp only [destroyEvent, dispatch, HandleWindowMessage, StopTimer]
    split_ifs <;> simp_all
  refine ⟨run_keeps_sleep_scope P es ARCCApp.init flags hinit, hoff, ?_⟩
  rw [run_keeps_sleep_scope P (es ++ [destroyEvent]) ARCCApp.init flags hinit, hoff]

/-- Witness of C24: target captured and countdown started: the timer is active and sleep
is inhibited; after `WM_DESTROY` neither. -/
theorem sleep_inhibition_scoped_witness :
    sleepInhibited (threadExecutionState 0 (run platformLive
      [beginCapture 5, Event.mouseHook (clickOn [⟨4, "notepad.exe"⟩]),
       startEvent (clock 3 14 5 0 0)] ARCCApp.init).2) = true ∧
    sleepInhibited (threadExecutionState 0 (run platformLive
      ([beginCapture 5, Event.mouseHook (clickOn [⟨4, "notepad.exe"⟩]),
       startEvent (clock 3 14 5 0 0)] ++ [destroyEvent]) ARCCApp.init).2) = false := by
  have h := sleep_inhibition_scoped platformLive
    [beginCapture 5, Event.mouseHook (clickOn [⟨4, "notepad.exe"⟩]),
     startEvent (clock 3 14 5 0 0)] 0 (by decide)
  refine ⟨?_, h.2.2⟩
  rw [h.1]
  decide

/-! ## Capture: success -/

/-- The lookup loop returns the stripped file name of the first entry with the wanted
process id. -/
theorem resolveProcessName_found (processId : Nat) (name : String)
    (entries : List PROCESSENTRY32) (pe : PROCESSENTRY32)
    (hfound : entries.find? (fun e => decide (e.th32ProcessID = processId)) = some pe) :
    resolveProcessName processId name entries = stripExe pe.szExeFile := by
  induction entries with
  | nil => simp at hfound
  | cons e rest ih =>
    by_cases he : e.th32ProcessID = processId
    · simp [List.find?, he] at hfound
      subst hfound
      simp [resolveProcessName, he]
    · simp [List.find?, he] at hfound
      simp [resolveProcessName, he, ih hfound]

/-- C25: while capturing, a left-button press over a window `W` whose owning process is
found in the process list, with a resolved name that is neither `explorer` nor `arcc`,
sets the target handle to `W`, the process name to that resolved name and the title to
the title of `W` (empty when there is none); all three members are overwritten, so
nothing of an earlier target remains.  The session ends: the hook it holds is removed,
the handle nulled and the capturing flag cleared. -/
theorem HandleInputHook_captures (ev : HookEvent) (s : ARCCApp)
    (entries : List PROCESSENTRY32) (pe : PROCESSENTRY32)
    (hcap : s.m_bCapturing = true) (hcode : 0 ≤ ev.nCode) (hmsg : ev.wParam = WM_LBUTTONDOWN)
    (hwnd : ev.windowFromPoint ≠ 0) (hsnap : ev.snapshot = some entries)
    (hfound : entries.find? (fun e => decide (e.th32ProcessID = ev.processId)) = some pe)
    (hallowed : stripExe pe.szExeFile ≠ PROCESS_EXPLORER ∧
      stripExe pe.szExeFile ≠ PROCESS_ARCC) :
    (InputHookProc ev s).1 =
      { s with m_hTargetWindow := ev.windowFromPoint,
               m_targetProcessName := stripExe pe.szExeFile,
               m_targetWindowTitle := ev.windowTitle.getD "",
               m_hInputHook := 0, m_bCapturing := false } ∧
    (InputHookProc ev s).2 =
      (if s.m_hInputHook ≠ 0 then [Effect.UnhookWindowsHookEx s.m_hInputHook] else []) ++
        [Effect.UpdateUI, Effect.CallNextHookEx 0] := by
  have hl : lookupProcessName ev s =
      { s with m_targetProcessName := stripExe pe.szExeFile } := by
    simp only [lookupProcessName, hsnap]
    rw [resolveProcessName_found ev.processId s.m_targetProcessName entries pe hfound]
  have hp : InputHookProc ev s = HandleInputHook ev s := by simp [InputHookProc, hcap]
  rw [hp]
  cases ht : ev.windowTitle <;> by_cases hh : s.m_hInputHook = 0 <;>
    simp [HandleInputHook, StopWindowCapture, hcode, hmsg, hwnd, hl, hallowed.1, hallowed.2,
      ht, hh]

/-- Witness of C25: in the capturing sample state a press over window `9` of
`notepad.exe` captures it. -/
theorem HandleInputHook_captures_witness :
    (InputHookProc (clickOn [⟨1, "System"⟩, ⟨4, "notepad.exe"⟩]) capturingState).1 =
      { ARCCApp.init with m_hTargetWindow := 9, m_targetProcessName := "notepad",
                          m_targetWindowTitle := "Desktop" } :=
  (HandleInputHook_captures (clickOn [⟨1, "System"⟩, ⟨4, "notepad.exe"⟩]) capturingState
    [⟨1, "System"⟩, ⟨4, "notepad.exe"⟩] ⟨4, "notepad.exe"⟩ rfl (by decide) rfl (by decide) rfl
    (by decide) (by decide)).1

/-! ## The stored fire instant and hour offset -/

/-- C26: in an armed state no event recomputes the fire instant: a tick (before or at
expiry), a click on an hour button, on the target button (begin capture) or on the start
button (which stops the timer), an intercepted click, Escape, loss of focus and window
destruction all leave `m_targetTime` as it was.  It is written only by a start from the
stopped state. -/
theorem fire_instant_fixed_while_armed (P : Platform) (e : Event) (s : ARCCApp)
    (harmed : s.m_bTimerActive = true) :
    (dispatch P e s).1.m_targetTime = s.m_targetTime := by
  cases e with
  | message now hook msg =>
    cases msg with
    | WM_TIMER timerID =>
      cases timerID
      all_goals simp only [dispatch, HandleWindowMessage, OnTimer, CheckCountdown, StopTimer]
      all_goals try split_ifs
      all_goals simp_all
    | WM_KEYDOWN wParam =>
      simp only [dispatch, HandleWindowMessage, cancelCapture, StopWindowCapture]
      split_ifs <;> simp_all
    | WM_KILLFOCUS =>
      simp only [dispatch, HandleWindowMessage, cancelCapture, StopWindowCapture]
      split_ifs <;> simp_all
    | WM_LBUTTONDOWN pos =>
      cases pos with
      | titleBar => rfl
      | content hit =>
        simp only [dispatch, HandleWindowMessage, OnMouseLeftClick, HandleContentClick,
          StartWindowCapture, GetCurrentAppState, ToggleTimer, StopTimer]
        split_ifs <;> (try split) <;> simp_all
    | WM_DESTROY =>
      simp only [dispatch, HandleWindowMessage, StopTimer]
      split_ifs
      all_goals simp_all
    | OTHER => rfl
  | mouseHook ev =>
    have hl : (lookupProcessName ev s).m_targetTime = s.m_targetTime := by
      unfold lookupProcessName
      cases ev.snapshot <;> simp
    simp only [dispatch, InputHookProc, HandleInputHook, StopWindowCapture]
    split_ifs <;> (try split) <;> simp_all

/-- Witness of C26: in the armed sample state, a click on hour button 0 and a click on
the start button (a stop) leave the fire instant at 17:00:10. -/
theorem fire_instant_fixed_while_armed_witness :
    (dispatch platformLive
      (Event.message (clock 3 15 0 0 0) 0 (Message.WM_LBUTTONDOWN (ClickPos.content (hourClick 0))))
      armedState).1.m_targetTime = clock 3 17 0 10 0 ∧
    (dispatch platformLive (startEvent (clock 3 15 0 0 0)) armedState).1.m_targetTime =
      clock 3 17 0 10 0 :=
  ⟨fire_instant_fixed_while_armed platformLive
      (Event.message (clock 3 15 0 0 0) 0 (Message.WM_LBUTTONDOWN (ClickPos.content (hourClick 0))))
      armedState rfl,
   fire_instant_fixed_while_armed platformLive (startEvent (clock 3 15 0 0 0)) armedState rfl⟩

/-- One event keeps the selected hour offset within 0..4. -/
theorem dispatch_keeps_offset_range (P : Platform) (e : Event) (s : ARCCApp)
    (hr : s.m_selectedHourOffset ≤ 4) :
    (dispatch P e s).1.m_selectedHourOffset ≤ 4 := by
  cases e with
  | message now hook msg =>
    cases msg with
    | WM_TIMER timerID =>
      cases timerID <;>
        simp only [dispatch, HandleWindowMessage, OnTimer, CheckCountdown, StopTimer] <;>
        (try split_ifs) <;> simp_all
    | WM_KEYDOWN wParam =>
      simp only [dispatch, HandleWindowMessage, cancelCapture, StopWindowCapture]
      split_ifs <;> simp_all
    | WM_KILLFOCUS =>
      simp only [dispatch, HandleWindowMessage, cancelCapture, StopWindowCapture]
      split_ifs <;> simp_all
    | WM_LBUTTONDOWN pos =>
      cases pos with
      | titleBar => exact hr
      | content hit =>
        simp only [dispatch, HandleWindowMessage, OnMouseLeftClick, HandleContentClick,
          StartWindowCapture, GetCurrentAppState, ToggleTimer, StopTimer]
        split_ifs
        all_goals try simp_all
        cases hf : (List.range HOUR_COUNT).find? hit.inHourButton with
        | none => simpa using hr
        | some i =>
          have hm := List.mem_of_find?_eq_some hf
          simp only [List.mem_range, HOUR_COUNT] at hm
          show i ≤ 4
          omega
    | WM_DESTROY =>
      simp only [dispatch, HandleWindowMessage, StopTimer]
      split_ifs <;> simp_all
    | OTHER => exact hr
  | mouseHook ev =>
    have hl : (lookupProcessName ev s).m_selectedHourOffset = s.m_selectedHourOffset := by
      unfold lookupProcessName
      cases ev.snapshot <;> simp
    simp only [dispatch, InputHookProc, HandleInputHook, StopWindowCapture]
    split_ifs <;> (try split) <;> simp_all

/-- C27: the selected hour offset is 0 in the initial state and lies in 0..4 in every
state reached from it by a run of events; the two writes store a value in 0..4 (a hit
hour button stores its index, below `HOUR_COUNT = 5`; a fire stores 0); and a click on
the content area that lands on no button leaves the state, with its offset, as it
was. -/
theorem hour_offset_in_range (P : Platform) (es : List Event) :
    ARCCApp.init.m_selectedHourOffset = 0 ∧
    (run P es ARCCApp.init).1.m_selectedHourOffset ≤ 4 ∧
    (∀ hook now s, HandleContentClick hook now missClick s = (s, [])) ∧
    (∀ (hit : ContentHit) (i : Nat),
      (List.range HOUR_COUNT).find? hit.inHourButton = some i → i ≤ 4) := by
  have hrun : ∀ (l : List Event) (s : ARCCApp), s.m_selectedHourOffset ≤ 4 →
      (run P l s).1.m_selectedHourOffset ≤ 4 := by
    intro l
    induction l with
    | nil => intro s hs; exact hs
    | cons e l ih =>
      intro s hs
      exact ih (dispatch P e s).1 (dispatch_keeps_offset_range P e s hs)
  refine ⟨rfl, hrun es ARCCApp.init (by decide), ?_, ?_⟩
  · intro hook now s
    have hn : List.find? (fun _ => false) (List.range HOUR_COUNT) = none := by decide
    simp [HandleContentClick, missClick, hn]
  · intro hit i hf
    have hm := List.mem_of_find?_eq_some hf
    simp only [List.mem_range, HOUR_COUNT] at hm
    omega

/-! ## Start: bounds -/

/-- The fire instant `ToggleTimer` computes, in closed form. -/
theorem computeTargetTime_eq (now i : Nat) :
    computeTargetTime now i =
      from_time_t ((to_time_t now / 3600 + 1) * 3600) + hours i + 10 * TICKS_PER_SECOND := by
  simp only [computeTargetTime, localtime_s, mktime, from_time_t, to_time_t, hours,
    TICKS_PER_SECOND]
  split_ifs <;> omega

/-- C28: for a start at clock reading `now` with hour offset `i ≤ 4`: the hour sum
`hour + 1 + i` is below 48, so the day offset (its quotient by 24, taken when the sum
reaches 24) is 0 or 1 and the target hour (its remainder) is in 0..23 and is the hour of
the fire instant `F`; `now + 10 s < F ≤ now + (i + 1) h + 10 s ≤ now + 5 h + 10 s`; a
tick at the arm time does not fire; and at every clock reading from the arm time on the
hour field of the countdown is at most 5. -/
theorem start_fire_instant_bounds (P : Platform) (now : Nat) (s : ARCCApp)
    (hstop : s.m_bTimerActive = false) (htgt : s.m_hTargetWindow ≠ 0)
    (hi : s.m_selectedHourOffset ≤ 4) :
    (localtime_s (to_time_t now)).tm_hour ≤ 23 ∧
    ((localtime_s (to_time_t now)).tm_hour + 1 + s.m_selectedHourOffset) / 24 ≤ 1 ∧
    ((localtime_s (to_time_t now)).tm_hour + 1 + s.m_selectedHourOffset) % 24 ≤ 23 ∧
    (localtime_s (to_time_t (ToggleTimer now s).1.m_targetTime)).tm_hour =
      ((localtime_s (to_time_t now)).tm_hour + 1 + s.m_selectedHourOffset) % 24 ∧
    (localtime_s (to_time_t (ToggleTimer now s).1.m_targetTime)).tm_day =
      (localtime_s (to_time_t now)).tm_day +
        ((localtime_s (to_time_t now)).tm_hour + 1 + s.m_selectedHourOffset) / 24 ∧
    now + 10 * TICKS_PER_SECOND < (ToggleTimer now s).1.m_targetTime ∧
    (ToggleTimer now s).1.m_targetTime ≤
      now + hours (s.m_selectedHourOffset + 1) + 10 * TICKS_PER_SECOND ∧
    now + hours (s.m_selectedHourOffset + 1) + 10 * TICKS_PER_SECOND ≤
      now + hours 5 + 10 * TICKS_PER_SECOND ∧
    CheckCountdown P now (ToggleTimer now s).1 = ((ToggleTimer now s).1, []) ∧
    (∀ later, now ≤ later →
      ((ToggleTimer now s).1.m_targetTime - later) / TICKS_PER_SECOND / 3600 ≤ 5) ∧
    (ToggleTimer now s).1.m_targetTime =
      from_time_t (mktime
        { tm_sec := 10, tm_min := 0,
          tm_hour := ((localtime_s (to_time_t now)).tm_hour + 1 + s.m_selectedHourOffset) % 24,
          tm_day := (localtime_s (to_time_t now)).tm_day }) +
      hours (24 * (((localtime_s (to_time_t now)).tm_hour + 1 + s.m_selectedHourOffset) / 24))
    := by
  have hF : (ToggleTimer now s).1.m_targetTime =
      from_time_t ((to_time_t now / 3600 + 1) * 3600) + hours s.m_selectedHourOffset
        + 10 * TICKS_PER_SECOND := by
    simp only [ToggleTimer, hstop, htgt, Bool.false_eq_true, if_false]
    exact computeTargetTime_eq now s.m_selectedHourOffset
  have hlt : now + 10 * TICKS_PER_SECOND < (ToggleTimer now s).1.m_targetTime := by
    rw [hF]
    simp only [from_time_t, to_time_t, hours, TICKS_PER_SECOND]
    omega
  refine ⟨?_, ?_, ?_, ?_, ?_, hlt, ?_, ?_, ?_, ?_, ?_⟩
  · simp only [localtime_s]; omega
  · simp only [localtime_s]; omega
  · omega
  · rw [hF]
    simp only [localtime_s, from_time_t, to_time_t, hours, TICKS_PER_SECOND]
    omega
  · rw [hF]
    simp only [localtime_s, from_time_t, to_time_t, hours, TICKS_PER_SECOND]
    omega
  · rw [hF]
    simp only [from_time_t, to_time_t, hours, TICKS_PER_SECOND]
    omega
  · simp only [hours, TICKS_PER_SECOND]
    omega
  · have hnot : ¬ (now ≥ (ToggleTimer now s).1.m_targetTime) := by
      simp only [TICKS_PER_SECOND] at hlt
      omega
    simp only [CheckCountdown, hnot, if_false]
  · intro later hl
    rw [hF]
    simp only [from_time_t, to_time_t, hours, TICKS_PER_SECOND]
    omega
  · rw [hF]
    simp only [localtime_s, mktime, from_time_t, to_time_t, hours, TICKS_PER_SECOND]
    omega

/-- Witness of C28: the stopped sample state (offset 2) started at 23:40 on day 3 fires
at 02:00:10 on day 4. -/
theorem start_fire_instant_bounds_witness :
    (localtime_s (to_time_t (ToggleTimer (clock 3 23 40 0 0) readyState).1.m_targetTime)).tm_hour
      = 2 ∧
    (localtime_s (to_time_t (ToggleTimer (clock 3 23 40 0 0) readyState).1.m_targetTime)).tm_day
      = 4 :=
  ⟨(start_fire_instant_bounds platformLive (clock 3 23 40 0 0) readyState rfl (by decide)
      (by decide)).2.2.2.1,
   (start_fire_instant_bounds platformLive (clock 3 23 40 0 0) readyState rfl (by decide)
      (by decide)).2.2.2.2.1⟩

/-! ## Hour buttons and scheduler -/

/-- C29: for every clock reading `now` and every hour offset `i`, the instant under label
`i` of `GetNext5HourTimes` plus 10 seconds is the fire instant `ToggleTimer` computes at
the same `now` with offset `i` (`tm_hour += 1` normalised by `mktime`, and the explicit
remainder by 24 with a day offset, give the same instant, across midnight too); the
fire instant has the same hour of the day as that instant, so for `i` in 0..4 the label
on button `i` is the 12-hour label of the hour of the fire instant; and a start from a
stopped state with a target stores that instant. -/
theorem hour_buttons_agree_with_scheduler (now : Nat) (s : ARCCApp)
    (hstop : s.m_bTimerActive = false) (htgt : s.m_hTargetWindow ≠ 0) :
    (∀ i, futureTime now i + 10 * TICKS_PER_SECOND = computeTargetTime now i) ∧
    (∀ i, (localtime_s (to_time_t (computeTargetTime now i))).tm_hour =
      (localtime_s (to_time_t (futureTime now i))).tm_hour) ∧
    (∀ i, i < HOUR_COUNT → (GetNext5HourTimes now)[i]? =
      some (hourLabel (localtime_s (to_time_t (computeTargetTime now i))).tm_hour)) ∧
    (ToggleTimer now s).1.m_targetTime =
      futureTime now s.m_selectedHourOffset + 10 * TICKS_PER_SECOND := by
  have h1 : ∀ i, futureTime now i + 10 * TICKS_PER_SECOND = computeTargetTime now i := by
    intro i
    rw [computeTargetTime_eq]
    simp only [futureTime, nextHour, localtime_s, mktime, from_time_t, to_time_t, hours,
      TICKS_PER_SECOND]
    omega
  have h2 : ∀ i, (localtime_s (to_time_t (computeTargetTime now i))).tm_hour =
      (localtime_s (to_time_t (futureTime now i))).tm_hour := by
    intro i
    rw [computeTargetTime_eq]
    simp only [futureTime, nextHour, localtime_s, mktime, from_time_t, to_time_t, hours,
      TICKS_PER_SECOND]
    omega
  refine ⟨h1, h2, ?_, ?_⟩
  · intro i hi
    have hl : GetNext5HourTimes now =
        [0, 1, 2, 3, 4].map
          (fun i => hourLabel (localtime_s (to_time_t (futureTime now i))).tm_hour) := rfl
    rw [hl]
    simp only [HOUR_COUNT] at hi
    interval_cases i <;> simp [h2]
  · rw [h1]
    simp [ToggleTimer, hstop, htgt]

/-- Witness of C29: at 21:40 on day 3 the five labels are 10pm, 11pm, 12am, 1am, 2am,
and a start with offset 2 fires at 00:00:10 on day 4, ten seconds after the instant of
label 2. -/
theorem hour_buttons_agree_with_scheduler_witness :
    GetNext5HourTimes (clock 3 21 40 0 0) = ["10pm", "11pm", "12am", "1am", "2am"] ∧
    (ToggleTimer (clock 3 21 40 0 0) readyState).1.m_targetTime = clock 4 0 0 10 0 ∧
    futureTime (clock 3 21 40 0 0) 2 = clock 4 0 0 0 0 := by
  have h := (hour_buttons_agree_with_scheduler (clock 3 21 40 0 0) readyState rfl
    (by decide)).2.2.2
  refine ⟨by decide, ?_, by decide⟩
  rw [h]
  decide

/-! ## Begin capture: failure -/

/-- C30: when the hook cannot be installed (`hook = 0`), `StartWindowCapture` has
nonetheless cleared the target: the state afterwards has a null target handle and empty
title and process name, with the session idle; it is the state reached by a successful
begin-capture followed by a cancellation (Escape or loss of focus), and when a target was
held before the call it is not the state before the call. -/
theorem StartWindowCapture_failure_clears_target (P : Platform) (now hook : Nat)
    (s : ARCCApp) (hook_ok : hook ≠ 0) :
    (StartWindowCapture 0 s).1 =
      { s with m_hTargetWindow := 0, m_targetWindowTitle := "", m_targetProcessName := "",
               m_hInputHook := 0, m_bCapturing := false } ∧
    (StartWindowCapture 0 s).1 =
      (HandleWindowMessage P now 0 (Message.WM_KEYDOWN VK_ESCAPE)
        (StartWindowCapture hook s).1).1 ∧
    (StartWindowCapture 0 s).1 =
      (HandleWindowMessage P now 0 Message.WM_KILLFOCUS (StartWindowCapture hook s).1).1 ∧
    (s.m_hTargetWindow ≠ 0 → (StartWindowCapture 0 s).1 ≠ s) := by
  have h0 : (StartWindowCapture 0 s).1 =
      { s with m_hTargetWindow := 0, m_targetWindowTitle := "", m_targetProcessName := "",
               m_hInputHook := 0, m_bCapturing := false } := by
    simp [StartWindowCapture]
  refine ⟨h0, ?_, ?_, ?_⟩
  · rw [h0]
    simp [StartWindowCapture, HandleWindowMessage, cancelCapture, StopWindowCapture, hook_ok]
  · rw [h0]
    simp [StartWindowCapture, HandleWindowMessage, cancelCapture, StopWindowCapture, hook_ok]
  · intro ht heq
    rw [h0] at heq
    have := congrArg ARCCApp.m_hTargetWindow heq
    exact ht this.symm

/-- Witness of C30: a failed begin-capture from the sample state that holds window `7`
leaves no target. -/
theorem StartWindowCapture_failure_clears_target_witness :
    (StartWindowCapture 0 readyState).1.m_hTargetWindow = 0 ∧
    (StartWindowCapture 0 readyState).1 ≠ readyState :=
  ⟨by rw [(StartWindowCapture_failure_clears_target platformLive 0 5 readyState
      (by decide)).1],
   (StartWindowCapture_failure_clears_target platformLive 0 5 readyState (by decide)).2.2.2
      (by decide)⟩

end ARCC
